import Mathlib

/-!
Shallow embedding of the geographic boundary resolution pipeline of
`script.js` (Digital-Setu repository): the source-chain orchestrator
(`loadGeographicBoundaries`, `loadGovernmentVerifiedBoundaries`), the
sub-region extractors (`loadProvinceFromData`, `findNagarjunInData`,
`loadDistrictBoundaries`), the content verifier
(`verifyDisputedTerritories`) and the static fallback provisioner
(`loadFallbackBoundaries`).

Modelling choices:
* Each remote fetch is an element of `FetchOutcome`: a network error
  (`fetch` rejects), a non-success response (`!response.ok`), a payload
  that fails to parse (`response.json()` rejects), or a parsed dataset.
  An `Env` fixes the outcome of each of the eight statically configured
  sources; within one resolution pass each source is fetched at most
  once, so a function `SourceId → FetchOutcome` is adequate.
* JavaScript exceptions and `try`/`catch` are modelled by `TryOut`:
  global mutable state survives a throw, so a thrown exception carries
  the state at the throw point.
* The three global polygon variables (`nepalPolygon`, `bagmatiPolygon`,
  `nagarjunPolygon`) are `Option` slots in `St`; every assignment also
  bumps a per-slot write counter, and the state records the sequence of
  fetched sources and the sequence of disputed-territory check results
  (the code only logs that boolean to the console).
* `JSON.stringify(feature.geometry.coordinates)` is modelled by storing
  the serialized coordinate text of a feature's geometry as a string
  field (`coordText`); the verifier scans that text exactly as the code
  scans the stringified coordinates.
-/

/-- Prefix test on character lists: `charsStartWith s t` is true when `t`
is an initial segment of `s` (used to model JavaScript substring search). -/
def charsStartWith : List Char → List Char → Bool
  | _, [] => true
  | [], _ :: _ => false
  | c :: cs, d :: ds => c == d && charsStartWith cs ds

/-- Contiguous-substring test on character lists, the semantics of
JavaScript `String.prototype.includes`. -/
def charsContain : List Char → List Char → Bool
  | s, t =>
    charsStartWith s t ||
      match s with
      | [] => false
      | _ :: cs => charsContain cs t

/-- ASCII lower-casing of one character, as JavaScript `toLowerCase`
behaves on the ASCII names this pipeline compares. -/
def lowerChar (c : Char) : Char :=
  if 'A' ≤ c ∧ c ≤ 'Z' then Char.ofNat (c.toNat + 32) else c

/-- ASCII lower-casing of a string. -/
def lowerStr (s : String) : String :=
  ⟨s.data.map lowerChar⟩

/-- JavaScript `s.includes(t)`: `t` occurs contiguously in `s`. -/
def strContains (s t : String) : Bool :=
  charsContain s.data t.data

/-- JavaScript `a || b` on an optional string `a` (absent and empty
strings are falsy) with default `b`. -/
def jsOr (a : Option String) (b : String) : String :=
  match a with
  | some s => if s = "" then b else s
  | none => b

/-- Attribute map of a GeoJSON feature; the pipeline reads the keys
`ADM1_EN`, `PROVINCE`, `NAME` and `DISTRICT`, each possibly absent. -/
structure Props where
  ADM1_EN : Option String
  PROVINCE : Option String
  NAME : Option String
  DISTRICT : Option String
deriving DecidableEq

/-- Geometry of a feature; `coordText` models
`JSON.stringify(feature.geometry.coordinates)`. -/
structure Geometry where
  coordText : String
deriving DecidableEq

/-- One GeoJSON feature: an attribute map and an optional geometry
(`feature.geometry` may be absent). -/
structure Feature where
  properties : Props
  geometry : Option Geometry
deriving DecidableEq

/-- A fetched GeoJSON payload; `features` is `none` when the payload has
no `features` array. -/
structure Dataset where
  features : Option (List Feature)
deriving DecidableEq

/-- The eight statically configured remote sources, in the order the
chains declare them: the two country sources of
`loadGeographicBoundaries`, the two government-verified sources of
`loadGovernmentVerifiedBoundaries`, the two municipality sources, and
the two district sources. -/
inductive SourceId where
  | nepal1
  | nepal2
  | oknp
  | community
  | muni1
  | muni2
  | dist1
  | dist2
deriving DecidableEq

/-- Outcome of fetching one source: the promise rejects (network error),
the response is not ok, the body fails to parse as JSON, or a parsed
dataset is produced. -/
inductive FetchOutcome where
  | netError
  | notOk
  | parseError
  | success (d : Dataset)
deriving DecidableEq

/-- Whether a fetch outcome is a failure of any kind (network error,
non-success response, or unparseable payload). -/
def isFailure : FetchOutcome → Bool
  | .success _ => false
  | _ => true

/-- An environment fixes the outcome of each remote source for one
resolution pass. -/
abbrev Env := SourceId → FetchOutcome

/-- Geometry held by one of the three output slots: a whole dataset
rendered with `L.geoJSON`, a single feature rendered with `L.geoJSON`,
or a hardcoded outline rendered with `L.polygon`. -/
inductive Geom where
  | dataset (d : Dataset)
  | feature (f : Feature)
  | outline (pts : List (Rat × Rat))
deriving DecidableEq

/-- Provenance of a resolved boundary: the source whose dataset produced
it, a district polygon standing in for the province, or the static
fallback provisioner. -/
inductive Provenance where
  | source (s : SourceId)
  | districtProxy (s : SourceId)
  | fallback
deriving DecidableEq

/-- Mutable state of one resolution pass: the three global polygon
slots with provenance, per-slot write counters, the ordered log of
fetched sources, and the logged disputed-territory check results. -/
structure St where
  nepal : Option (Geom × Provenance)
  bagmati : Option (Geom × Provenance)
  nagarjun : Option (Geom × Provenance)
  nepalWrites : Nat
  bagmatiWrites : Nat
  nagarjunWrites : Nat
  fetched : List SourceId
  disputedChecks : List Bool
deriving DecidableEq

/-- State at the start of a pass: all three polygon variables `null`,
nothing fetched. -/
def initialSt : St :=
  ⟨none, none, none, 0, 0, 0, [], []⟩

/-- Record that a source was fetched (in order of attempts). -/
def recordFetch (st : St) (s : SourceId) : St :=
  { st with fetched := st.fetched ++ [s] }

/-- Append a list of fetched sources. -/
def addFetched (st : St) (l : List SourceId) : St :=
  { st with fetched := st.fetched ++ l }

/-- Record the logged result of a disputed-territory check. -/
def pushLog (st : St) (b : Bool) : St :=
  { st with disputedChecks := st.disputedChecks ++ [b] }

/-- Assignment to the global `nepalPolygon`. -/
def setNepal (st : St) (g : Geom) (p : Provenance) : St :=
  { st with nepal := some (g, p), nepalWrites := st.nepalWrites + 1 }

/-- Assignment to the global `bagmatiPolygon`. -/
def setBagmati (st : St) (g : Geom) (p : Provenance) : St :=
  { st with bagmati := some (g, p), bagmatiWrites := st.bagmatiWrites + 1 }

/-- Assignment to the global `nagarjunPolygon`. -/
def setNagarjun (st : St) (g : Geom) (p : Provenance) : St :=
  { st with nagarjun := some (g, p), nagarjunWrites := st.nagarjunWrites + 1 }

/-- Result of running a block that may throw: either it completed
normally or an exception escaped; global state survives in both cases. -/
inductive TryOut where
  | normal (st : St)
  | thrown (st : St)
deriving DecidableEq

/-- State carried by a `TryOut`, whichever way the block ended. -/
def finalSt : TryOut → St
  | .normal st => st
  | .thrown st => st

/-- Name used by the Bagmati matcher:
`props.ADM1_EN || props.PROVINCE || props.NAME || ''`. -/
def provinceName (p : Props) : String :=
  jsOr p.ADM1_EN (jsOr p.PROVINCE (jsOr p.NAME ""))

/-- Bagmati match on a resolved name:
`name.toLowerCase().includes('bagmati') || name === '3' || name === 'Province 3'`. -/
def bagmatiMatchName (name : String) : Bool :=
  strContains (lowerStr name) "bagmati" || name == "3" || name == "Province 3"

/-- Predicate of the `find` in `loadProvinceFromData`. -/
def bagmatiMatch (f : Feature) : Bool :=
  bagmatiMatchName (provinceName f.properties)

/-- The `nepalData.features?.find(...)` of `loadProvinceFromData`:
first feature matching the Bagmati target, `none` when the payload has
no features array or no feature matches. -/
def findBagmati (d : Dataset) : Option Feature :=
  d.features.bind (List.find? bagmatiMatch)

/-- Predicate of the `find` in `findNagarjunInData`:
`(feature.properties.NAME || '').toLowerCase().includes('nagarjun')`. -/
def nagarjunMatch (f : Feature) : Bool :=
  strContains (lowerStr (jsOr f.properties.NAME "")) "nagarjun"

/-- First feature of a municipality dataset whose NAME contains
"nagarjun" case-insensitively. -/
def findNagarjun (d : Dataset) : Option Feature :=
  d.features.bind (List.find? nagarjunMatch)

/-- Predicate of the `find` in `loadDistrictBoundaries`:
`(feature.properties.NAME || feature.properties.DISTRICT || '').toLowerCase().includes('kathmandu')`. -/
def kathmanduMatch (f : Feature) : Bool :=
  strContains (lowerStr (jsOr f.properties.NAME (jsOr f.properties.DISTRICT ""))) "kathmandu"

/-- First feature of a district dataset matching Kathmandu. -/
def findKathmandu (d : Dataset) : Option Feature :=
  d.features.bind (List.find? kathmanduMatch)

/-- The content verifier `verifyDisputedTerritories`: scan each
feature's serialized coordinates for the substrings "80.8" or "80.9";
a payload without a features array is wrapped as a single pseudo-feature
that has no `geometry`, so the scan finds nothing. -/
def verifyDisputedTerritories (d : Dataset) : Bool :=
  match d.features with
  | some fs =>
    fs.any fun f =>
      match f.geometry with
      | some g => strContains g.coordText "80.8" || strContains g.coordText "80.9"
      | none => false
  | none => false

/-- `findNagarjunInData`: search the municipality dataset and assign
`nagarjunPolygon` when a match is found; otherwise leave state alone
(the code only logs the miss). -/
def findNagarjunInData (st : St) (src : SourceId) (d : Dataset) : St :=
  match findNagarjun d with
  | some f => setNagarjun st (Geom.feature f) (Provenance.source src)
  | none => st

/-- `loadOfficialMunicipalityBoundaries`, with its two-element source
loop unrolled: fetch the first municipality source; on a parsed dataset
run `findNagarjunInData` and return; on any failure (thrown fetch or
parse error caught by the inner `catch`, or a non-ok response falling
off the `if (response.ok)`) continue with the second source; if both
fail the function only logs a warning. -/
def loadOfficialMunicipalityBoundaries (env : Env) (st : St) : St :=
  match env .muni1 with
  | .success d => findNagarjunInData (recordFetch st .muni1) .muni1 d
  | _ =>
    match env .muni2 with
    | .success d => findNagarjunInData (recordFetch (recordFetch st .muni1) .muni2) .muni2 d
    | _ => recordFetch (recordFetch st .muni1) .muni2

/-- Body run by `loadDistrictBoundaries` on a parsed district dataset:
find Kathmandu and use it as the province proxy only when
`bagmatiPolygon` is still unset (`if (!bagmatiPolygon)`). -/
def districtProcess (st : St) (src : SourceId) (d : Dataset) : St :=
  match findKathmandu d with
  | some f =>
    if st.bagmati = none then
      setBagmati st (Geom.feature f) (Provenance.districtProxy src)
    else st
  | none => st

/-- `loadDistrictBoundaries`, with its two-element source loop
unrolled: the first parsed dataset ends the loop via the `return`
(even when it contains no Kathmandu feature, since the `return` sits
outside the `if (kathmanduFeature)`); a non-ok response `continue`s and
a thrown fetch or parse error is caught and the loop continues. -/
def loadDistrictBoundaries (env : Env) (st : St) : St :=
  match env .dist1 with
  | .success d => districtProcess (recordFetch st .dist1) .dist1 d
  | _ =>
    match env .dist2 with
    | .success d => districtProcess (recordFetch (recordFetch st .dist1) .dist2) .dist2 d
    | _ => recordFetch (recordFetch st .dist1) .dist2

/-- `loadProvinceFromData`: extract Bagmati from the country dataset
fetched from source `src`; when absent, fall through to the district
chain. -/
def loadProvinceFromData (env : Env) (src : SourceId) (d : Dataset) (st : St) : St :=
  match findBagmati d with
  | some f => setBagmati st (Geom.feature f) (Provenance.source src)
  | none => loadDistrictBoundaries env st

/-- `loadNepalBoundaryData`: log the disputed-territory check, install
the whole dataset as the country boundary, extract the province, then
load municipalities. Parameterised by the verifier `v` so that
independence of the pipeline from the verifier's result is statable;
the pipeline itself instantiates `v` with `verifyDisputedTerritories`. -/
def loadNepalBoundaryData (v : Dataset → Bool) (env : Env) (d : Dataset)
    (src : SourceId) (st : St) : St :=
  loadOfficialMunicipalityBoundaries env
    (loadProvinceFromData env src d
      (setNepal (pushLog st (v d)) (Geom.dataset d) (Provenance.source src)))

/-- Hardcoded simplified Nepal outline of `loadFallbackBoundaries`
(latitude, longitude pairs). -/
def nepalOutline : List (Rat × Rat) :=
  [(30.447, 80.056), (30.42, 80.52), (30.35, 81.0), (30.25, 81.5), (30.15, 82.0),
   (30.05, 82.5), (29.95, 83.0), (29.85, 83.5), (29.75, 84.0), (29.65, 84.5),
   (29.55, 85.0), (29.45, 85.5), (29.35, 86.0), (29.25, 86.5), (29.15, 87.0),
   (29.05, 87.5), (28.95, 88.0), (28.85, 88.201), (28.7, 88.15), (28.5, 88.0),
   (28.3, 87.8), (28.1, 87.6), (27.9, 87.4), (27.7, 87.2), (27.5, 87.0),
   (27.3, 86.8), (27.1, 86.6), (26.9, 86.4), (26.7, 86.2), (26.5, 86.0),
   (26.4, 85.8), (26.35, 85.6), (26.3, 85.4), (26.25, 85.2), (26.2, 85.0),
   (26.25, 84.8), (26.3, 84.6), (26.35, 84.4), (26.4, 84.2), (26.45, 84.0),
   (26.5, 83.8), (26.55, 83.6), (26.6, 83.4), (26.65, 83.2), (26.7, 83.0),
   (26.8, 82.8), (26.9, 82.6), (27.0, 82.4), (27.1, 82.2), (27.2, 82.0),
   (27.3, 81.8), (27.4, 81.6), (27.5, 81.4), (27.6, 81.2), (27.7, 81.0),
   (27.8, 80.8), (27.9, 80.6), (28.0, 80.4), (28.2, 80.2), (28.5, 80.1),
   (28.8, 80.05), (29.2, 80.03), (29.6, 80.04), (30.0, 80.05), (30.447, 80.056)]

/-- Hardcoded Bagmati Province outline of `loadFallbackBoundaries`. -/
def bagmatiOutline : List (Rat × Rat) :=
  [(28.3949, 84.9180), (28.35, 85.1), (28.3, 85.3), (28.25, 85.5), (28.2, 85.7),
   (28.1, 85.9), (28.0, 86.0), (27.9, 86.1), (27.8, 86.15), (27.7, 86.1654),
   (27.6, 86.1), (27.5, 86.05), (27.4, 85.95), (27.3, 85.85), (27.2, 85.75),
   (27.1, 85.65), (27.0873, 85.55), (27.1, 85.45), (27.12, 85.35), (27.15, 85.25),
   (27.2, 85.15), (27.25, 85.05), (27.3, 84.98), (27.4, 84.94), (27.5, 84.92),
   (27.6, 84.91), (27.7, 84.915), (27.8, 84.92), (27.9, 84.93), (28.0, 84.95),
   (28.1, 84.98), (28.2, 85.0), (28.3, 85.02), (28.3949, 84.9180)]

/-- Hardcoded Nagarjun Municipality outline of `loadFallbackBoundaries`. -/
def nagarjunOutline : List (Rat × Rat) :=
  [(27.7800, 85.2200), (27.7780, 85.2250), (27.7750, 85.2300), (27.7720, 85.2350),
   (27.7690, 85.2400), (27.7650, 85.2450), (27.7600, 85.2500), (27.7550, 85.2550),
   (27.7500, 85.2600), (27.7450, 85.2650), (27.7400, 85.2700), (27.7380, 85.2750),
   (27.7360, 85.2800), (27.7350, 85.2850), (27.7340, 85.2900), (27.7335, 85.2950),
   (27.7330, 85.3000), (27.7325, 85.3050), (27.7320, 85.3100), (27.7315, 85.3150),
   (27.7310, 85.3200), (27.7280, 85.3180), (27.7250, 85.3160), (27.7220, 85.3140),
   (27.7190, 85.3120), (27.7160, 85.3100), (27.7130, 85.3080), (27.7100, 85.3060),
   (27.7070, 85.3040), (27.7040, 85.3020), (27.7010, 85.3000), (27.6980, 85.2980),
   (27.6950, 85.2960), (27.6920, 85.2940), (27.6900, 85.2920), (27.6920, 85.2900),
   (27.6940, 85.2880), (27.6960, 85.2860), (27.6980, 85.2840), (27.7000, 85.2820),
   (27.7020, 85.2800), (27.7040, 85.2780), (27.7060, 85.2760), (27.7080, 85.2740),
   (27.7100, 85.2720), (27.7120, 85.2700), (27.7140, 85.2680), (27.7160, 85.2660),
   (27.7180, 85.2640), (27.7200, 85.2620), (27.7220, 85.2600), (27.7240, 85.2580),
   (27.7260, 85.2560), (27.7280, 85.2540), (27.7300, 85.2520), (27.7320, 85.2500),
   (27.7340, 85.2480), (27.7360, 85.2460), (27.7380, 85.2440), (27.7400, 85.2420),
   (27.7420, 85.2400), (27.7440, 85.2380), (27.7460, 85.2360), (27.7480, 85.2340),
   (27.7500, 85.2320), (27.7520, 85.2300), (27.7540, 85.2280), (27.7560, 85.2260),
   (27.7580, 85.2240), (27.7600, 85.2220), (27.7650, 85.2210), (27.7700, 85.2205),
   (27.7750, 85.2202), (27.7800, 85.2200)]

/-- `loadFallbackBoundaries`: deterministic, no I/O; assigns the three
hardcoded outlines to the three slots in one call. -/
def loadFallbackBoundaries (st : St) : St :=
  setNagarjun
    (setBagmati
      (setNepal st (Geom.outline nepalOutline) Provenance.fallback)
      (Geom.outline bagmatiOutline) Provenance.fallback)
    (Geom.outline nagarjunOutline) Provenance.fallback

/-- The `try` block of `loadGovernmentVerifiedBoundaries`: fetch the
Open Knowledge Nepal source; a thrown fetch or parse error escapes to
the `catch`; a non-ok response moves on to the community source; a
non-ok community response reaches the explicit
`throw new Error('All official and verified boundary sources failed')`. -/
def govVerifiedAttempt (v : Dataset → Bool) (env : Env) (st : St) : TryOut :=
  match env .oknp with
  | .netError => .thrown (recordFetch st .oknp)
  | .parseError => .thrown (recordFetch st .oknp)
  | .success d => .normal (loadNepalBoundaryData v env d .oknp (recordFetch st .oknp))
  | .notOk =>
    let st1 := recordFetch (recordFetch st .oknp) .community
    match env .community with
    | .netError => .thrown st1
    | .parseError => .thrown st1
    | .success d => .normal (loadNepalBoundaryData v env d .community st1)
    | .notOk => .thrown st1

/-- `loadGovernmentVerifiedBoundaries`: its `catch` handles anything the
`try` block throws by calling the static fallback provisioner, which
cannot throw, so the function itself always returns normally. -/
def loadGovernmentVerifiedBoundaries (v : Dataset → Bool) (env : Env) (st : St) : TryOut :=
  match govVerifiedAttempt v env st with
  | .normal st1 => .normal st1
  | .thrown st1 => .normal (loadFallbackBoundaries st1)

/-- The `try` block of `loadGeographicBoundaries`: fetch the primary
country source; a thrown fetch or parse error escapes to the `catch`; a
non-ok response tries the alternative source, whose non-ok response
reaches the explicit `throw new Error(...)`. -/
def geographicAttempt (v : Dataset → Bool) (env : Env) (st : St) : TryOut :=
  match env .nepal1 with
  | .netError => .thrown (recordFetch st .nepal1)
  | .parseError => .thrown (recordFetch st .nepal1)
  | .success d => .normal (loadNepalBoundaryData v env d .nepal1 (recordFetch st .nepal1))
  | .notOk =>
    let st1 := recordFetch (recordFetch st .nepal1) .nepal2
    match env .nepal2 with
    | .netError => .thrown st1
    | .parseError => .thrown st1
    | .success d => .normal (loadNepalBoundaryData v env d .nepal2 st1)
    | .notOk => .thrown st1

/-- `loadGeographicBoundaries`, the top-level entry point: its `catch`
delegates to the government-verified chain; an exception escaping that
call would propagate to the caller. -/
def loadGeographicBoundaries (v : Dataset → Bool) (env : Env) (st : St) : TryOut :=
  match geographicAttempt v env st with
  | .normal st1 => .normal st1
  | .thrown st1 => loadGovernmentVerifiedBoundaries v env st1

/-- One full resolution pass from the initial state, with the verifier
the code actually uses. -/
def runPipeline (env : Env) : St :=
  finalSt (loadGeographicBoundaries verifyDisputedTerritories env initialSt)

/-- Sources the municipality chain fetches, as a function of the
environment. -/
def muniTrace (env : Env) : List SourceId :=
  match env .muni1 with
  | .success _ => [.muni1]
  | _ => [.muni1, .muni2]

/-- Sources the district chain fetches. -/
def districtTrace (env : Env) : List SourceId :=
  match env .dist1 with
  | .success _ => [.dist1]
  | _ => [.dist1, .dist2]

/-- Sources fetched by the province-extraction step: none when Bagmati
is found in the country dataset, the district chain otherwise. -/
def provinceTrace (env : Env) (d : Dataset) : List SourceId :=
  match findBagmati d with
  | some _ => []
  | none => districtTrace env

/-- Sources fetched while processing a successfully fetched country
dataset: district sources only when Bagmati is absent, then the
municipality sources. -/
def nbdTrace (env : Env) (d : Dataset) : List SourceId :=
  provinceTrace env d ++ muniTrace env

/-- Country-tier sources fetched by the primary chain. -/
def countryTrace (env : Env) : List SourceId :=
  match env .nepal1 with
  | .notOk => [.nepal1, .nepal2]
  | _ => [.nepal1]

/-- Government-verified-tier sources fetched. -/
def govTracePre (env : Env) : List SourceId :=
  match env .oknp with
  | .notOk => [.oknp, .community]
  | _ => [.oknp]

/-- Which country-tier source (if any) delivers a parsed dataset to
`loadNepalBoundaryData` via the primary chain. -/
def countryPick (env : Env) : Option (SourceId × Dataset) :=
  match env .nepal1 with
  | .success d => some (.nepal1, d)
  | .notOk =>
    match env .nepal2 with
    | .success d => some (.nepal2, d)
    | _ => none
  | _ => none

/-- Which government-verified source (if any) delivers a parsed dataset
to `loadNepalBoundaryData`. -/
def govPick (env : Env) : Option (SourceId × Dataset) :=
  match env .oknp with
  | .success d => some (.oknp, d)
  | .notOk =>
    match env .community with
    | .success d => some (.community, d)
    | _ => none
  | _ => none

/-- The four country-tier sources, in chain order. -/
def countryTierSources : List SourceId :=
  [.nepal1, .nepal2, .oknp, .community]

/-- Complete fetch log of one pass, as a function of the environment. -/
def runTrace (env : Env) : List SourceId :=
  match countryPick env with
  | some (_, d) => countryTrace env ++ nbdTrace env d
  | none =>
    match govPick env with
    | some (_, d) => countryTrace env ++ govTracePre env ++ nbdTrace env d
    | none => countryTrace env ++ govTracePre env

/-- Canonical fetch order: any single pass fetches a subsequence of
this list. -/
def canonicalOrder : List SourceId :=
  [.nepal1, .nepal2, .oknp, .community, .dist1, .dist2, .muni1, .muni2]

/-- Environment in which every source answers with a non-success
response. -/
def envAllNotOk : Env := fun _ => .notOk

/-- Environment in which every fetch fails with a network error. -/
def envAllNet : Env := fun _ => .netError

/-- A country dataset containing a feature labeled "Bagmati Province"
under `ADM1_EN`. -/
def dBag : Dataset :=
  ⟨some [⟨⟨some "Bagmati Province", none, none, none⟩, none⟩]⟩

/-- A country dataset whose only feature is labeled "Gandaki", so the
Bagmati extraction finds nothing. -/
def dNoBag : Dataset :=
  ⟨some [⟨⟨some "Gandaki", none, none, none⟩, none⟩]⟩

/-- A district dataset containing a feature named "Kathmandu". -/
def dKat : Dataset :=
  ⟨some [⟨⟨none, none, some "Kathmandu", none⟩, none⟩]⟩

/-- A municipality dataset with no feature whose NAME contains
"nagarjun". -/
def dNoNag : Dataset :=
  ⟨some [⟨⟨none, none, some "Tarakeshwar", none⟩, none⟩]⟩

/-- A country dataset whose serialized coordinates contain neither
"80.8" nor "80.9", so the disputed-territory verifier reports false. -/
def dNo80 : Dataset :=
  ⟨some [⟨⟨some "Bagmati Province", none, none, none⟩, some ⟨"[[85.3,27.7]]"⟩⟩]⟩

/-- Environment for the C1 counterexample: the primary country source
fails with a network error, every other source answers non-success. -/
def envCountryNet : Env := fun s =>
  match s with
  | .nepal1 => .netError
  | _ => .notOk

/-- Environment for the C2 counterexample: the primary country source
succeeds with a Bagmati-bearing dataset, and both municipality sources
fail. -/
def envMuniFail : Env := fun s =>
  match s with
  | .nepal1 => .success dBag
  | _ => .notOk

/-- Environment of the district-as-proxy scenario: country data without
Bagmati, first district source carrying Kathmandu, all else failing. -/
def envDistrictProxy : Env := fun s =>
  match s with
  | .nepal1 => .success dNoBag
  | .dist1 => .success dKat
  | _ => .notOk

/-- Environment in which the country chain succeeds and the first
municipality source parses but contains no Nagarjun feature. -/
def envMuniNoNag : Env := fun s =>
  match s with
  | .nepal1 => .success dBag
  | .muni1 => .success dNoNag
  | _ => .notOk

/-- Environment in which the country dataset lacks the disputed
territories, so the verifier reports false. -/
def envVerifyFalse : Env := fun s =>
  match s with
  | .nepal1 => .success dNo80
  | _ => .notOk

/-! ### Projection lemmas for the state helpers -/

@[simp] lemma recordFetch_nepal (st : St) (s : SourceId) : (recordFetch st s).nepal = st.nepal := rfl

@[simp] lemma recordFetch_bagmati (st : St) (s : SourceId) : (recordFetch st s).bagmati = st.bagmati := rfl

@[simp] lemma recordFetch_nagarjun (st : St) (s : SourceId) : (recordFetch st s).nagarjun = st.nagarjun := rfl

@[simp] lemma recordFetch_nepalWrites (st : St) (s : SourceId) : (recordFetch st s).nepalWrites = st.nepalWrites := rfl

@[simp] lemma recordFetch_bagmatiWrites (st : St) (s : SourceId) : (recordFetch st s).bagmatiWrites = st.bagmatiWrites := rfl

@[simp] lemma recordFetch_nagarjunWrites (st : St) (s : SourceId) : (recordFetch st s).nagarjunWrites = st.nagarjunWrites := rfl

@[simp] lemma recordFetch_fetched (st : St) (s : SourceId) : (recordFetch st s).fetched = st.fetched ++ [s] := rfl

@[simp] lemma recordFetch_disputedChecks (st : St) (s : SourceId) : (recordFetch st s).disputedChecks = st.disputedChecks := rfl

@[simp] lemma addFetched_nepal (st : St) (l : List SourceId) : (addFetched st l).nepal = st.nepal := rfl

@[simp] lemma addFetched_bagmati (st : St) (l : List SourceId) : (addFetched st l).bagmati = st.bagmati := rfl

@[simp] lemma addFetched_nagarjun (st : St) (l : List SourceId) : (addFetched st l).nagarjun = st.nagarjun := rfl

@[simp] lemma addFetched_nepalWrites (st : St) (l : List SourceId) : (addFetched st l).nepalWrites = st.nepalWrites := rfl

@[simp] lemma addFetched_bagmatiWrites (st : St) (l : List SourceId) : (addFetched st l).bagmatiWrites = st.bagmatiWrites := rfl

@[simp] lemma addFetched_nagarjunWrites (st : St) (l : List SourceId) : (addFetched st l).nagarjunWrites = st.nagarjunWrites := rfl

@[simp] lemma addFetched_fetched (st : St) (l : List SourceId) : (addFetched st l).fetched = st.fetched ++ l := rfl

@[simp] lemma addFetched_disputedChecks (st : St) (l : List SourceId) : (addFetched st l).disputedChecks = st.disputedChecks := rfl

@[simp] lemma pushLog_nepal (st : St) (b : Bool) : (pushLog st b).nepal = st.nepal := rfl

@[simp] lemma pushLog_bagmati (st : St) (b : Bool) : (pushLog st b).bagmati = st.bagmati := rfl

@[simp] lemma pushLog_nagarjun (st : St) (b : Bool) : (pushLog st b).nagarjun = st.nagarjun := rfl

@[simp] lemma pushLog_nepalWrites (st : St) (b : Bool) : (pushLog st b).nepalWrites = st.nepalWrites := rfl

@[simp] lemma pushLog_bagmatiWrites (st : St) (b : Bool) : (pushLog st b).bagmatiWrites = st.bagmatiWrites := rfl

@[simp] lemma pushLog_nagarjunWrites (st : St) (b : Bool) : (pushLog st b).nagarjunWrites = st.nagarjunWrites := rfl

@[simp] lemma pushLog_fetched (st : St) (b : Bool) : (pushLog st b).fetched = st.fetched := rfl

@[simp] lemma pushLog_disputedChecks (st : St) (b : Bool) : (pushLog st b).disputedChecks = st.disputedChecks ++ [b] := rfl

@[simp] lemma setNepal_nepal (st : St) (g : Geom) (p : Provenance) : (setNepal st g p).nepal = some (g, p) := rfl

@[simp] lemma setNepal_bagmati (st : St) (g : Geom) (p : Provenance) : (setNepal st g p).bagmati = st.bagmati := rfl

@[simp] lemma setNepal_nagarjun (st : St) (g : Geom) (p : Provenance) : (setNepal st g p).nagarjun = st.nagarjun := rfl

@[simp] lemma setNepal_nepalWrites (st : St) (g : Geom) (p : Provenance) : (setNepal st g p).nepalWrites = st.nepalWrites + 1 := rfl

@[simp] lemma setNepal_bagmatiWrites (st : St) (g : Geom) (p : Provenance) : (setNepal st g p).bagmatiWrites = st.bagmatiWrites := rfl

@[simp] lemma setNepal_nagarjunWrites (st : St) (g : Geom) (p : Provenance) : (setNepal st g p).nagarjunWrites = st.nagarjunWrites := rfl

@[simp] lemma setNepal_fetched (st : St) (g : Geom) (p : Provenance) : (setNepal st g p).fetched = st.fetched := rfl

@[simp] lemma setNepal_disputedChecks (st : St) (g : Geom) (p : Provenance) : (setNepal st g p).disputedChecks = st.disputedChecks := rfl

@[simp] lemma setBagmati_nepal (st : St) (g : Geom) (p : Provenance) : (setBagmati st g p).nepal = st.nepal := rfl

@[simp] lemma setBagmati_bagmati (st : St) (g : Geom) (p : Provenance) : (setBagmati st g p).bagmati = some (g, p) := rfl

@[simp] lemma setBagmati_nagarjun (st : St) (g : Geom) (p : Provenance) : (setBagmati st g p).nagarjun = st.nagarjun := rfl

@[simp] lemma setBagmati_nepalWrites (st : St) (g : Geom) (p : Provenance) : (setBagmati st g p).nepalWrites = st.nepalWrites := rfl

@[simp] lemma setBagmati_bagmatiWrites (st : St) (g : Geom) (p : Provenance) : (setBagmati st g p).bagmatiWrites = st.bagmatiWrites + 1 := rfl

@[simp] lemma setBagmati_nagarjunWrites (st : St) (g : Geom) (p : Provenance) : (setBagmati st g p).nagarjunWrites = st.nagarjunWrites := rfl

@[simp] lemma setBagmati_fetched (st : St) (g : Geom) (p : Provenance) : (setBagmati st g p).fetched = st.fetched := rfl

@[simp] lemma setBagmati_disputedChecks (st : St) (g : Geom) (p : Provenance) : (setBagmati st g p).disputedChecks = st.disputedChecks := rfl

@[simp] lemma setNagarjun_nepal (st : St) (g : Geom) (p : Provenance) : (setNagarjun st g p).nepal = st.nepal := rfl

@[simp] lemma setNagarjun_bagmati (st : St) (g : Geom) (p : Provenance) : (setNagarjun st g p).bagmati = st.bagmati := rfl

@[simp] lemma setNagarjun_nagarjun (st : St) (g : Geom) (p : Provenance) : (setNagarjun st g p).nagarjun = some (g, p) := rfl

@[simp] lemma setNagarjun_nepalWrites (st : St) (g : Geom) (p : Provenance) : (setNagarjun st g p).nepalWrites = st.nepalWrites := rfl

@[simp] lemma setNagarjun_bagmatiWrites (st : St) (g : Geom) (p : Provenance) : (setNagarjun st g p).bagmatiWrites = st.bagmatiWrites := rfl

@[simp] lemma setNagarjun_nagarjunWrites (st : St) (g : Geom) (p : Provenance) : (setNagarjun st g p).nagarjunWrites = st.nagarjunWrites + 1 := rfl

@[simp] lemma setNagarjun_fetched (st : St) (g : Geom) (p : Provenance) : (setNagarjun st g p).fetched = st.fetched := rfl

@[simp] lemma setNagarjun_disputedChecks (st : St) (g : Geom) (p : Provenance) : (setNagarjun st g p).disputedChecks = st.disputedChecks := rfl

/-! ### Structural lemmas about the extraction and chain functions -/

lemma findNagarjunInData_shape (st : St) (src : SourceId) (d : Dataset) :
    findNagarjunInData st src d = st ∨
    ∃ f, findNagarjun d = some f ∧
      findNagarjunInData st src d = setNagarjun st (Geom.feature f) (Provenance.source src) := by
  unfold findNagarjunInData
  cases h : findNagarjun d
  · exact Or.inl rfl
  · exact Or.inr ⟨_, rfl, rfl⟩

@[simp] lemma findNagarjunInData_nepal (st : St) (src : SourceId) (d : Dataset) :
    (findNagarjunInData st src d).nepal = st.nepal := by
  unfold findNagarjunInData; cases h : findNagarjun d <;> simp

@[simp] lemma findNagarjunInData_bagmati (st : St) (src : SourceId) (d : Dataset) :
    (findNagarjunInData st src d).bagmati = st.bagmati := by
  unfold findNagarjunInData; cases h : findNagarjun d <;> simp

@[simp] lemma findNagarjunInData_nepalWrites (st : St) (src : SourceId) (d : Dataset) :
    (findNagarjunInData st src d).nepalWrites = st.nepalWrites := by
  unfold findNagarjunInData; cases h : findNagarjun d <;> simp

@[simp] lemma findNagarjunInData_bagmatiWrites (st : St) (src : SourceId) (d : Dataset) :
    (findNagarjunInData st src d).bagmatiWrites = st.bagmatiWrites := by
  unfold findNagarjunInData; cases h : findNagarjun d <;> simp

@[simp] lemma findNagarjunInData_fetched (st : St) (src : SourceId) (d : Dataset) :
    (findNagarjunInData st src d).fetched = st.fetched := by
  unfold findNagarjunInData; cases h : findNagarjun d <;> simp

@[simp] lemma findNagarjunInData_disputedChecks (st : St) (src : SourceId) (d : Dataset) :
    (findNagarjunInData st src d).disputedChecks = st.disputedChecks := by
  unfold findNagarjunInData; cases h : findNagarjun d <;> simp

@[simp] lemma districtProcess_nepal (st : St) (src : SourceId) (d : Dataset) :
    (districtProcess st src d).nepal = st.nepal := by
  unfold districtProcess
  repeat' split
  all_goals rfl

@[simp] lemma districtProcess_nagarjun (st : St) (src : SourceId) (d : Dataset) :
    (districtProcess st src d).nagarjun = st.nagarjun := by
  unfold districtProcess
  repeat' split
  all_goals rfl

@[simp] lemma districtProcess_nepalWrites (st : St) (src : SourceId) (d : Dataset) :
    (districtProcess st src d).nepalWrites = st.nepalWrites := by
  unfold districtProcess
  repeat' split
  all_goals rfl

@[simp] lemma districtProcess_nagarjunWrites (st : St) (src : SourceId) (d : Dataset) :
    (districtProcess st src d).nagarjunWrites = st.nagarjunWrites := by
  unfold districtProcess
  repeat' split
  all_goals rfl

@[simp] lemma districtProcess_fetched (st : St) (src : SourceId) (d : Dataset) :
    (districtProcess st src d).fetched = st.fetched := by
  unfold districtProcess
  repeat' split
  all_goals rfl

@[simp] lemma districtProcess_disputedChecks (st : St) (src : SourceId) (d : Dataset) :
    (districtProcess st src d).disputedChecks = st.disputedChecks := by
  unfold districtProcess
  repeat' split
  all_goals rfl

lemma districtProcess_bagmati_shape (st : St) (src : SourceId) (d : Dataset) :
    ((districtProcess st src d).bagmati = st.bagmati ∧
     (districtProcess st src d).bagmatiWrites = st.bagmatiWrites) ∨
    (st.bagmati = none ∧ ∃ f, findKathmandu d = some f ∧
     (districtProcess st src d).bagmati = some (Geom.feature f, Provenance.districtProxy src) ∧
     (districtProcess st src d).bagmatiWrites = st.bagmatiWrites + 1) := by
  unfold districtProcess
  repeat' split
  all_goals simp_all

lemma muni_preserved (env : Env) (st : St) :
    (loadOfficialMunicipalityBoundaries env st).nepal = st.nepal ∧
    (loadOfficialMunicipalityBoundaries env st).bagmati = st.bagmati ∧
    (loadOfficialMunicipalityBoundaries env st).nepalWrites = st.nepalWrites ∧
    (loadOfficialMunicipalityBoundaries env st).bagmatiWrites = st.bagmatiWrites ∧
    (loadOfficialMunicipalityBoundaries env st).disputedChecks = st.disputedChecks := by
  unfold loadOfficialMunicipalityBoundaries
  repeat' split
  all_goals simp

lemma muni_fetched (env : Env) (st : St) :
    (loadOfficialMunicipalityBoundaries env st).fetched = st.fetched ++ muniTrace env := by
  unfold loadOfficialMunicipalityBoundaries muniTrace
  repeat' split
  all_goals simp_all

lemma muni_nagarjun_shape (env : Env) (st : St) :
    ((loadOfficialMunicipalityBoundaries env st).nagarjun = st.nagarjun ∧
     (loadOfficialMunicipalityBoundaries env st).nagarjunWrites = st.nagarjunWrites) ∨
    (∃ f s, (loadOfficialMunicipalityBoundaries env st).nagarjun = some (Geom.feature f, Provenance.source s) ∧
     (loadOfficialMunicipalityBoundaries env st).nagarjunWrites = st.nagarjunWrites + 1) := by
  unfold loadOfficialMunicipalityBoundaries findNagarjunInData
  repeat' split
  all_goals simp

lemma muni_first_noMatch (env : Env) (st : St) (d : Dataset)
    (h1 : env .muni1 = .success d) (h2 : findNagarjun d = none) :
    loadOfficialMunicipalityBoundaries env st = recordFetch st .muni1 := by
  unfold loadOfficialMunicipalityBoundaries findNagarjunInData
  simp [h1, h2]

lemma muni_bothFail (env : Env) (st : St)
    (h1 : isFailure (env .muni1) = true) (h2 : isFailure (env .muni2) = true) :
    loadOfficialMunicipalityBoundaries env st = recordFetch (recordFetch st .muni1) .muni2 := by
  unfold loadOfficialMunicipalityBoundaries
  cases hm1 : env .muni1 <;> cases hm2 : env .muni2 <;> simp_all [isFailure]

lemma district_preserved (env : Env) (st : St) :
    (loadDistrictBoundaries env st).nepal = st.nepal ∧
    (loadDistrictBoundaries env st).nagarjun = st.nagarjun ∧
    (loadDistrictBoundaries env st).nepalWrites = st.nepalWrites ∧
    (loadDistrictBoundaries env st).nagarjunWrites = st.nagarjunWrites ∧
    (loadDistrictBoundaries env st).disputedChecks = st.disputedChecks := by
  unfold loadDistrictBoundaries
  repeat' split
  all_goals simp

lemma district_fetched (env : Env) (st : St) :
    (loadDistrictBoundaries env st).fetched = st.fetched ++ districtTrace env := by
  unfold loadDistrictBoundaries districtTrace
  repeat' split
  all_goals simp_all

lemma district_bagmati_shape (env : Env) (st : St) :
    ((loadDistrictBoundaries env st).bagmati = st.bagmati ∧
     (loadDistrictBoundaries env st).bagmatiWrites = st.bagmatiWrites) ∨
    (st.bagmati = none ∧ ∃ f s, (loadDistrictBoundaries env st).bagmati = some (Geom.feature f, Provenance.districtProxy s) ∧
     (loadDistrictBoundaries env st).bagmatiWrites = st.bagmatiWrites + 1) := by
  unfold loadDistrictBoundaries
  cases h1 : env .dist1 with
  | success d =>
    rcases districtProcess_bagmati_shape (recordFetch st .dist1) .dist1 d with ⟨h, h'⟩ | ⟨hb, f, hf, h, h'⟩
    · exact Or.inl (by simp_all)
    · exact Or.inr ⟨by simpa using hb, f, .dist1, by simp_all⟩
  | netError =>
    cases h2 : env .dist2 with
    | success d =>
      rcases districtProcess_bagmati_shape (recordFetch (recordFetch st .dist1) .dist2) .dist2 d with ⟨h, h'⟩ | ⟨hb, f, hf, h, h'⟩
      · exact Or.inl (by simp_all)
      · exact Or.inr ⟨by simpa using hb, f, .dist2, by simp_all⟩
    | netError => exact Or.inl (by simp)
    | notOk => exact Or.inl (by simp)
    | parseError => exact Or.inl (by simp)
  | notOk =>
    cases h2 : env .dist2 with
    | success d =>
      rcases districtProcess_bagmati_shape (recordFetch (recordFetch st .dist1) .dist2) .dist2 d with ⟨h, h'⟩ | ⟨hb, f, hf, h, h'⟩
      · exact Or.inl (by simp_all)
      · exact Or.inr ⟨by simpa using hb, f, .dist2, by simp_all⟩
    | netError => exact Or.inl (by simp)
    | notOk => exact Or.inl (by simp)
    | parseError => exact Or.inl (by simp)
  | parseError =>
    cases h2 : env .dist2 with
    | success d =>
      rcases districtProcess_bagmati_shape (recordFetch (recordFetch st .dist1) .dist2) .dist2 d with ⟨h, h'⟩ | ⟨hb, f, hf, h, h'⟩
      · exact Or.inl (by simp_all)
      · exact Or.inr ⟨by simpa using hb, f, .dist2, by simp_all⟩
    | netError => exact Or.inl (by simp)
    | notOk => exact Or.inl (by simp)
    | parseError => exact Or.inl (by simp)

lemma district_first_found (env : Env) (st : St) (d : Dataset) (f : Feature)
    (h1 : env .dist1 = .success d) (h2 : findKathmandu d = some f) (hb : st.bagmati = none) :
    loadDistrictBoundaries env st =
      setBagmati (recordFetch st .dist1) (Geom.feature f) (Provenance.districtProxy .dist1) := by
  unfold loadDistrictBoundaries districtProcess
  simp [h1, h2, hb]

lemma province_preserved (env : Env) (src : SourceId) (d : Dataset) (st : St) :
    (loadProvinceFromData env src d st).nepal = st.nepal ∧
    (loadProvinceFromData env src d st).nagarjun = st.nagarjun ∧
    (loadProvinceFromData env src d st).nepalWrites = st.nepalWrites ∧
    (loadProvinceFromData env src d st).nagarjunWrites = st.nagarjunWrites ∧
    (loadProvinceFromData env src d st).disputedChecks = st.disputedChecks := by
  unfold loadProvinceFromData
  cases h : findBagmati d
  · exact district_preserved env st
  · simp

lemma province_fetched (env : Env) (src : SourceId) (d : Dataset) (st : St) :
    (loadProvinceFromData env src d st).fetched = st.fetched ++ provinceTrace env d := by
  unfold loadProvinceFromData provinceTrace
  cases h : findBagmati d
  · simp [district_fetched]
  · simp

lemma province_bagmati_shape (env : Env) (src : SourceId) (d : Dataset) (st : St) :
    ((loadProvinceFromData env src d st).bagmati = st.bagmati ∧
     (loadProvinceFromData env src d st).bagmatiWrites = st.bagmatiWrites) ∨
    (∃ f, findBagmati d = some f ∧
     (loadProvinceFromData env src d st).bagmati = some (Geom.feature f, Provenance.source src) ∧
     (loadProvinceFromData env src d st).bagmatiWrites = st.bagmatiWrites + 1) ∨
    (st.bagmati = none ∧ ∃ f s, (loadProvinceFromData env src d st).bagmati = some (Geom.feature f, Provenance.districtProxy s) ∧
     (loadProvinceFromData env src d st).bagmatiWrites = st.bagmatiWrites + 1) := by
  unfold loadProvinceFromData
  cases h : findBagmati d
  · rcases district_bagmati_shape env st with hd | ⟨hb, f, s, hf, h'⟩
    · exact Or.inl hd
    · exact Or.inr (Or.inr ⟨hb, f, s, hf, h'⟩)
  · exact Or.inr (Or.inl ⟨_, rfl, by simp, by simp⟩)

lemma province_found (env : Env) (src : SourceId) (d : Dataset) (st : St) (f : Feature)
    (h : findBagmati d = some f) :
    loadProvinceFromData env src d st = setBagmati st (Geom.feature f) (Provenance.source src) := by
  unfold loadProvinceFromData
  simp [h]

lemma province_notFound (env : Env) (src : SourceId) (d : Dataset) (st : St)
    (h : findBagmati d = none) :
    loadProvinceFromData env src d st = loadDistrictBoundaries env st := by
  unfold loadProvinceFromData
  simp [h]

/-! ### The disputed-territory log commutes with every chain step -/

lemma findNagarjunInData_pushLog (st : St) (src : SourceId) (d : Dataset) (b : Bool) :
    findNagarjunInData (pushLog st b) src d = pushLog (findNagarjunInData st src d) b := by
  unfold findNagarjunInData
  cases h : findNagarjun d <;> rfl

lemma recordFetch_pushLog (st : St) (b : Bool) (s : SourceId) :
    recordFetch (pushLog st b) s = pushLog (recordFetch st s) b := rfl

lemma muni_pushLog (env : Env) (st : St) (b : Bool) :
    loadOfficialMunicipalityBoundaries env (pushLog st b) =
      pushLog (loadOfficialMunicipalityBoundaries env st) b := by
  unfold loadOfficialMunicipalityBoundaries
  cases h1 : env .muni1 <;> cases h2 : env .muni2 <;>
    simp only [recordFetch_pushLog, findNagarjunInData_pushLog]

lemma districtProcess_pushLog (st : St) (src : SourceId) (d : Dataset) (b : Bool) :
    districtProcess (pushLog st b) src d = pushLog (districtProcess st src d) b := by
  unfold districtProcess
  cases h : findKathmandu d
  · rfl
  · by_cases hb : st.bagmati = none <;> simp [hb, pushLog, setBagmati]

lemma district_pushLog (env : Env) (st : St) (b : Bool) :
    loadDistrictBoundaries env (pushLog st b) = pushLog (loadDistrictBoundaries env st) b := by
  unfold loadDistrictBoundaries
  cases h1 : env .dist1 <;> cases h2 : env .dist2 <;>
    simp only [recordFetch_pushLog, districtProcess_pushLog]

lemma province_pushLog (env : Env) (src : SourceId) (d : Dataset) (st : St) (b : Bool) :
    loadProvinceFromData env src d (pushLog st b) = pushLog (loadProvinceFromData env src d st) b := by
  unfold loadProvinceFromData
  cases h : findBagmati d
  · simp [district_pushLog]
  · rfl

lemma nbd_pushLog_eq (v : Dataset → Bool) (env : Env) (d : Dataset) (src : SourceId) (st : St) :
    loadNepalBoundaryData v env d src st =
      pushLog (loadOfficialMunicipalityBoundaries env
        (loadProvinceFromData env src d (setNepal st (Geom.dataset d) (Provenance.source src)))) (v d) := by
  unfold loadNepalBoundaryData
  have h1 : setNepal (pushLog st (v d)) (Geom.dataset d) (Provenance.source src) =
      pushLog (setNepal st (Geom.dataset d) (Provenance.source src)) (v d) := rfl
  rw [h1, province_pushLog, muni_pushLog]

/-! ### Composite lemmas about `loadNepalBoundaryData` -/

lemma nbd_nepal (v : Dataset → Bool) (env : Env) (d : Dataset) (src : SourceId) (st : St) :
    (loadNepalBoundaryData v env d src st).nepal = some (Geom.dataset d, Provenance.source src) ∧
    (loadNepalBoundaryData v env d src st).nepalWrites = st.nepalWrites + 1 := by
  rw [nbd_pushLog_eq]
  constructor
  · rw [pushLog_nepal, (muni_preserved _ _).1, (province_preserved _ _ _ _).1, setNepal_nepal]
  · rw [pushLog_nepalWrites, (muni_preserved _ _).2.2.1, (province_preserved _ _ _ _).2.2.1,
      setNepal_nepalWrites]

lemma nbd_fetched (v : Dataset → Bool) (env : Env) (d : Dataset) (src : SourceId) (st : St) :
    (loadNepalBoundaryData v env d src st).fetched = st.fetched ++ nbdTrace env d := by
  rw [nbd_pushLog_eq]
  rw [pushLog_fetched, muni_fetched, province_fetched, setNepal_fetched]
  simp [nbdTrace]

lemma nbd_log (v : Dataset → Bool) (env : Env) (d : Dataset) (src : SourceId) (st : St) :
    (loadNepalBoundaryData v env d src st).disputedChecks = st.disputedChecks ++ [v d] := by
  rw [nbd_pushLog_eq]
  rw [pushLog_disputedChecks, (muni_preserved _ _).2.2.2.2, (province_preserved _ _ _ _).2.2.2.2,
    setNepal_disputedChecks]

lemma nbd_bagmati_shape (v : Dataset → Bool) (env : Env) (d : Dataset) (src : SourceId) (st : St) :
    ((loadNepalBoundaryData v env d src st).bagmati = st.bagmati ∧
     (loadNepalBoundaryData v env d src st).bagmatiWrites = st.bagmatiWrites) ∨
    (∃ f, findBagmati d = some f ∧
     (loadNepalBoundaryData v env d src st).bagmati = some (Geom.feature f, Provenance.source src) ∧
     (loadNepalBoundaryData v env d src st).bagmatiWrites = st.bagmatiWrites + 1) ∨
    (st.bagmati = none ∧ ∃ f s, (loadNepalBoundaryData v env d src st).bagmati = some (Geom.feature f, Provenance.districtProxy s) ∧
     (loadNepalBoundaryData v env d src st).bagmatiWrites = st.bagmatiWrites + 1) := by
  rw [nbd_pushLog_eq]
  have hm := muni_preserved env
    (loadProvinceFromData env src d (setNepal st (Geom.dataset d) (Provenance.source src)))
  rcases province_bagmati_shape env src d (setNepal st (Geom.dataset d) (Provenance.source src)) with
    ⟨h, h'⟩ | ⟨f, hf, h, h'⟩ | ⟨hb, f, s, h, h'⟩
  · exact Or.inl (by simp_all)
  · exact Or.inr (Or.inl ⟨f, hf, by simp_all, by simp_all⟩)
  · exact Or.inr (Or.inr ⟨by simpa using hb, f, s, by simp_all, by simp_all⟩)

lemma nbd_nagarjun_shape (v : Dataset → Bool) (env : Env) (d : Dataset) (src : SourceId) (st : St) :
    ((loadNepalBoundaryData v env d src st).nagarjun = st.nagarjun ∧
     (loadNepalBoundaryData v env d src st).nagarjunWrites = st.nagarjunWrites) ∨
    (∃ f s, (loadNepalBoundaryData v env d src st).nagarjun = some (Geom.feature f, Provenance.source s) ∧
     (loadNepalBoundaryData v env d src st).nagarjunWrites = st.nagarjunWrites + 1) := by
  rw [nbd_pushLog_eq]
  have hp := province_preserved env src d (setNepal st (Geom.dataset d) (Provenance.source src))
  rcases muni_nagarjun_shape env
      (loadProvinceFromData env src d (setNepal st (Geom.dataset d) (Provenance.source src))) with
    ⟨h, h'⟩ | ⟨f, s, h, h'⟩
  · exact Or.inl (by simp_all)
  · exact Or.inr ⟨f, s, by simp_all, by simp_all⟩

/-! ### Characterisation of a whole pass -/

lemma gov_finalSt (v : Dataset → Bool) (env : Env) (st : St) :
    finalSt (loadGovernmentVerifiedBoundaries v env st) =
      match govPick env with
      | some (s, d) => loadNepalBoundaryData v env d s (addFetched st (govTracePre env))
      | none => loadFallbackBoundaries (addFetched st (govTracePre env)) := by
  unfold loadGovernmentVerifiedBoundaries govVerifiedAttempt govPick govTracePre
  cases h3 : env .oknp <;> cases h4 : env .community <;>
    simp [finalSt, recordFetch, addFetched]

lemma addFetched_cons (st : St) (s : SourceId) (l : List SourceId) :
    addFetched st (s :: l) = addFetched (recordFetch st s) l := by
  simp [addFetched, recordFetch]

lemma addFetched_nil (st : St) : addFetched st [] = st := by
  simp [addFetched]

lemma run_finalSt (v : Dataset → Bool) (env : Env) (st : St) :
    finalSt (loadGeographicBoundaries v env st) =
      match countryPick env with
      | some (s, d) => loadNepalBoundaryData v env d s (addFetched st (countryTrace env))
      | none =>
        match govPick env with
        | some (s, d) => loadNepalBoundaryData v env d s (addFetched st (countryTrace env ++ govTracePre env))
        | none => loadFallbackBoundaries (addFetched st (countryTrace env ++ govTracePre env)) := by
  unfold loadGeographicBoundaries geographicAttempt countryPick countryTrace
  cases h1 : env .nepal1 with
  | success d => simp [finalSt, addFetched_cons, addFetched_nil]
  | netError =>
    rw [gov_finalSt]
    cases hg : govPick env with
    | some p => obtain ⟨s, d⟩ := p; simp [addFetched_cons]
    | none => simp [addFetched_cons]
  | parseError =>
    rw [gov_finalSt]
    cases hg : govPick env with
    | some p => obtain ⟨s, d⟩ := p; simp [addFetched_cons]
    | none => simp [addFetched_cons]
  | notOk =>
    cases h2 : env .nepal2 with
    | success d => simp [finalSt, addFetched_cons, addFetched_nil]
    | netError =>
      rw [gov_finalSt]
      cases hg : govPick env with
      | some p => obtain ⟨s, d⟩ := p; simp [addFetched_cons]
      | none => simp [addFetched_cons]
    | parseError =>
      rw [gov_finalSt]
      cases hg : govPick env with
      | some p => obtain ⟨s, d⟩ := p; simp [addFetched_cons]
      | none => simp [addFetched_cons]
    | notOk =>
      rw [gov_finalSt]
      cases hg : govPick env with
      | some p => obtain ⟨s, d⟩ := p; simp [addFetched_cons]
      | none => simp [addFetched_cons]

lemma fallback_state (st : St) :
    (loadFallbackBoundaries st).nepal = some (Geom.outline nepalOutline, Provenance.fallback) ∧
    (loadFallbackBoundaries st).bagmati = some (Geom.outline bagmatiOutline, Provenance.fallback) ∧
    (loadFallbackBoundaries st).nagarjun = some (Geom.outline nagarjunOutline, Provenance.fallback) ∧
    (loadFallbackBoundaries st).nepalWrites = st.nepalWrites + 1 ∧
    (loadFallbackBoundaries st).bagmatiWrites = st.bagmatiWrites + 1 ∧
    (loadFallbackBoundaries st).nagarjunWrites = st.nagarjunWrites + 1 ∧
    (loadFallbackBoundaries st).fetched = st.fetched ∧
    (loadFallbackBoundaries st).disputedChecks = st.disputedChecks := by
  unfold loadFallbackBoundaries
  simp

lemma runPipeline_eq (env : Env) :
    runPipeline env =
      match countryPick env with
      | some (s, d) =>
        loadNepalBoundaryData verifyDisputedTerritories env d s (addFetched initialSt (countryTrace env))
      | none =>
        match govPick env with
        | some (s, d) =>
          loadNepalBoundaryData verifyDisputedTerritories env d s
            (addFetched initialSt (countryTrace env ++ govTracePre env))
        | none => loadFallbackBoundaries (addFetched initialSt (countryTrace env ++ govTracePre env)) :=
  run_finalSt verifyDisputedTerritories env initialSt

lemma runPipeline_fetched (env : Env) : (runPipeline env).fetched = runTrace env := by
  rw [runPipeline_eq]
  unfold runTrace
  cases hc : countryPick env with
  | some p =>
    obtain ⟨s, d⟩ := p
    simp [nbd_fetched, initialSt, addFetched]
  | none =>
    cases hg : govPick env with
    | some p =>
      obtain ⟨s, d⟩ := p
      simp [nbd_fetched, initialSt, addFetched]
    | none =>
      simp [(fallback_state _).2.2.2.2.2.2.1, initialSt, addFetched]

lemma muniTrace_sub (env : Env) :
    List.Sublist (muniTrace env) [SourceId.muni1, SourceId.muni2] := by
  unfold muniTrace
  cases h : env .muni1 <;> simp

lemma districtTrace_sub (env : Env) :
    List.Sublist (districtTrace env) [SourceId.dist1, SourceId.dist2] := by
  unfold districtTrace
  cases h : env .dist1 <;> simp

lemma provinceTrace_sub (env : Env) (d : Dataset) :
    List.Sublist (provinceTrace env d) [SourceId.dist1, SourceId.dist2] := by
  unfold provinceTrace
  cases h : findBagmati d
  · exact districtTrace_sub env
  · exact List.nil_sublist _

lemma nbdTrace_sub (env : Env) (d : Dataset) :
    List.Sublist (nbdTrace env d) [SourceId.dist1, SourceId.dist2, SourceId.muni1, SourceId.muni2] := by
  have h := List.Sublist.append (provinceTrace_sub env d) (muniTrace_sub env)
  simpa [nbdTrace] using h

lemma countryTrace_sub (env : Env) :
    List.Sublist (countryTrace env) [SourceId.nepal1, SourceId.nepal2] := by
  unfold countryTrace
  cases h : env .nepal1 <;> simp

lemma govTracePre_sub (env : Env) :
    List.Sublist (govTracePre env) [SourceId.oknp, SourceId.community] := by
  unfold govTracePre
  cases h : env .oknp <;> simp

lemma runTrace_sub (env : Env) : List.Sublist (runTrace env) canonicalOrder := by
  unfold runTrace
  cases hc : countryPick env with
  | some p =>
    obtain ⟨s, d⟩ := p
    have h1 : List.Sublist (nbdTrace env d)
        ([SourceId.oknp, SourceId.community] ++ [SourceId.dist1, SourceId.dist2, SourceId.muni1, SourceId.muni2]) :=
      (nbdTrace_sub env d).trans (List.sublist_append_right _ _)
    simpa [canonicalOrder] using List.Sublist.append (countryTrace_sub env) h1
  | none =>
    cases hg : govPick env with
    | some p =>
      obtain ⟨s, d⟩ := p
      have h1 := List.Sublist.append (List.Sublist.append (countryTrace_sub env) (govTracePre_sub env))
        (nbdTrace_sub env d)
      simpa [canonicalOrder] using h1
    | none =>
      have h1 : List.Sublist (countryTrace env ++ govTracePre env)
          ([SourceId.nepal1, SourceId.nepal2] ++ [SourceId.oknp, SourceId.community]) :=
        List.Sublist.append (countryTrace_sub env) (govTracePre_sub env)
      have h2 : List.Sublist ([SourceId.nepal1, SourceId.nepal2] ++ [SourceId.oknp, SourceId.community])
          canonicalOrder := by decide
      exact h1.trans h2

lemma runPipeline_nodup (env : Env) : (runPipeline env).fetched.Nodup := by
  rw [runPipeline_fetched]
  exact List.Nodup.sublist (runTrace_sub env) (by decide)

/-! ### First-match characterisation of `List.find?` -/

lemma find_first_iff {α : Type} (p : α → Bool) (l : List α) (f : α) :
    List.find? p l = some f ↔
      ∃ i, l.get? i = some f ∧ p f = true ∧
        ∀ j, j < i → ∀ g, l.get? j = some g → p g = false := by
  induction l with
  | nil => simp
  | cons a t ih =>
    cases hpa : p a
    · rw [List.find?_cons_of_neg _ (by simp [hpa])]
      constructor
      · intro h
        obtain ⟨i, hi, hpf, hall⟩ := ih.mp h
        refine ⟨i + 1, by simpa using hi, hpf, ?_⟩
        intro j hj g hg
        cases j with
        | zero =>
          rw [List.get?_cons_zero] at hg
          cases hg
          exact hpa
        | succ j' =>
          rw [List.get?_cons_succ] at hg
          exact hall j' (by omega) g hg
      · rintro ⟨i, hi, hpf, hall⟩
        cases i with
        | zero =>
          rw [List.get?_cons_zero] at hi
          cases hi
          rw [hpa] at hpf
          cases hpf
        | succ i' =>
          rw [List.get?_cons_succ] at hi
          refine ih.mpr ⟨i', hi, hpf, ?_⟩
          intro j hj g hg
          exact hall (j + 1) (by omega) g (by simpa using hg)
    · rw [List.find?_cons_of_pos _ hpa]
      constructor
      · intro h
        cases h
        exact ⟨0, rfl, hpa, by intro j hj; omega⟩
      · rintro ⟨i, hi, hpf, hall⟩
        cases i with
        | zero =>
          rw [List.get?_cons_zero] at hi
          cases hi
          rfl
        | succ i' =>
          have h0 := hall 0 (by omega) a (by rw [List.get?_cons_zero])
          rw [hpa] at h0
          cases h0

/-! ### Helper lemmas for the claim proofs -/

@[simp] lemma initialSt_nepal : initialSt.nepal = none := rfl

@[simp] lemma initialSt_bagmati : initialSt.bagmati = none := rfl

@[simp] lemma initialSt_nagarjun : initialSt.nagarjun = none := rfl

@[simp] lemma initialSt_nepalWrites : initialSt.nepalWrites = 0 := rfl

@[simp] lemma initialSt_bagmatiWrites : initialSt.bagmatiWrites = 0 := rfl

@[simp] lemma initialSt_nagarjunWrites : initialSt.nagarjunWrites = 0 := rfl

@[simp] lemma initialSt_fetched : initialSt.fetched = [] := rfl

@[simp] lemma initialSt_disputedChecks : initialSt.disputedChecks = [] := rfl

lemma countryPick_success (env : Env) (d : Dataset) (h : env .nepal1 = .success d) :
    countryPick env = some (.nepal1, d) := by
  unfold countryPick
  simp [h]

lemma countryPick_none (env : Env)
    (h1 : isFailure (env .nepal1) = true) (h2 : isFailure (env .nepal2) = true) :
    countryPick env = none := by
  unfold countryPick
  cases ha : env .nepal1 <;> cases hb : env .nepal2 <;> simp_all [isFailure]

lemma govPick_none (env : Env)
    (h3 : isFailure (env .oknp) = true) (h4 : isFailure (env .community) = true) :
    govPick env = none := by
  unfold govPick
  cases ha : env .oknp <;> cases hb : env .community <;> simp_all [isFailure]

lemma countryTrace_success (env : Env) (d : Dataset) (h : env .nepal1 = .success d) :
    countryTrace env = [.nepal1] := by
  unfold countryTrace
  simp [h]

lemma countryTrace_notOk (env : Env) (h : env .nepal1 = .notOk) :
    countryTrace env = [.nepal1, .nepal2] := by
  unfold countryTrace
  simp [h]

lemma countryTrace_thrown (env : Env)
    (h : env .nepal1 = .netError ∨ env .nepal1 = .parseError) :
    countryTrace env = [.nepal1] := by
  unfold countryTrace
  rcases h with h | h <;> simp [h]

lemma govTracePre_thrown (env : Env)
    (h : env .oknp = .netError ∨ env .oknp = .parseError) :
    govTracePre env = [.oknp] := by
  unfold govTracePre
  rcases h with h | h <;> simp [h]

lemma govTracePre_notOk (env : Env) (h : env .oknp = .notOk) :
    govTracePre env = [.oknp, .community] := by
  unfold govTracePre
  simp [h]

lemma oknp_mem_govTracePre (env : Env) : SourceId.oknp ∈ govTracePre env := by
  unfold govTracePre
  cases h : env .oknp <;> simp

lemma govPick_thrown (env : Env)
    (h : env .oknp = .netError ∨ env .oknp = .parseError) :
    govPick env = none := by
  unfold govPick
  rcases h with h | h <;> simp [h]

lemma muniTrace_success (env : Env) (d : Dataset) (h : env .muni1 = .success d) :
    muniTrace env = [.muni1] := by
  unfold muniTrace
  simp [h]

lemma muniTrace_fail (env : Env) (h : isFailure (env .muni1) = true) :
    muniTrace env = [.muni1, .muni2] := by
  unfold muniTrace
  cases ha : env .muni1 <;> simp_all [isFailure]

lemma districtTrace_success (env : Env) (d : Dataset) (h : env .dist1 = .success d) :
    districtTrace env = [.dist1] := by
  unfold districtTrace
  simp [h]

lemma districtTrace_fail (env : Env) (h : isFailure (env .dist1) = true) :
    districtTrace env = [.dist1, .dist2] := by
  unfold districtTrace
  cases ha : env .dist1 <;> simp_all [isFailure]

lemma allCountryFail_fallback (env : Env)
    (h1 : isFailure (env .nepal1) = true) (h2 : isFailure (env .nepal2) = true)
    (h3 : isFailure (env .oknp) = true) (h4 : isFailure (env .community) = true) :
    runPipeline env = loadFallbackBoundaries (addFetched initialSt (countryTrace env ++ govTracePre env)) := by
  rw [runPipeline_eq, countryPick_none env h1 h2, govPick_none env h3 h4]

/-! ### Claim theorems -/

/-- C10: each of the three hardcoded fallback outlines (`nepalOutline`,
`bagmatiOutline`, `nagarjunOutline`) is a closed ring: its first
coordinate pair equals its last coordinate pair (the stated lengths pin
down the transcription of the constants). -/
theorem c10_closed_rings :
    nepalOutline.head? = nepalOutline.getLast? ∧ nepalOutline.length = 65 ∧
    bagmatiOutline.head? = bagmatiOutline.getLast? ∧ bagmatiOutline.length = 34 ∧
    nagarjunOutline.head? = nagarjunOutline.getLast? ∧ nagarjunOutline.length = 74 := by
  refine ⟨?_, ?_, ?_, ?_, ?_, ?_⟩ <;> rfl

/-- C1 counterexample: in the environment where the primary country
source fails with a network error, the country chain does not attempt
source 2 at all — the thrown fetch jumps to the government-verified
tier — refuting the claim that any failure of source N leads to source
N+1 of its chain being attempted. -/
theorem c1_counterexample :
    isFailure (envCountryNet .nepal1) = true ∧
    SourceId.nepal1 ∈ (runPipeline envCountryNet).fetched ∧
    SourceId.nepal2 ∉ (runPipeline envCountryNet).fetched := by
  decide

/-- C2 counterexample: with the country chain succeeding and both
municipality sources failing, the municipality level ends the pass
unset (`none`) rather than holding the static fallback geometry with
provenance fallback — refuting the claim for the municipality level. -/
theorem c2_counterexample :
    envMuniFail .nepal1 = .success dBag ∧
    isFailure (envMuniFail .muni1) = true ∧
    isFailure (envMuniFail .muni2) = true ∧
    SourceId.muni1 ∈ (runPipeline envMuniFail).fetched ∧
    SourceId.muni2 ∈ (runPipeline envMuniFail).fetched ∧
    (runPipeline envMuniFail).nagarjun = none := by
  decide

/-- C5: the Bagmati extractor returns exactly the first feature in
dataset order whose resolved name (`ADM1_EN`, else `PROVINCE`, else
`NAME`) contains "bagmati" after case folding or equals "3" or
"Province 3"; a name resolving to "BAGMATI PROVINCE" matches while
"Bagmat" does not; and when no feature matches, the extractor yields
`none` rather than any region. -/
theorem c5_bagmati_extractor :
    (∀ (d : Dataset) (f : Feature), findBagmati d = some f ↔
       ∃ fs, d.features = some fs ∧
         ∃ i, fs.get? i = some f ∧ bagmatiMatch f = true ∧
           ∀ j, j < i → ∀ g, fs.get? j = some g → bagmatiMatch g = false) ∧
    (∀ f : Feature, provinceName f.properties = "BAGMATI PROVINCE" → bagmatiMatch f = true) ∧
    (∀ f : Feature, provinceName f.properties = "Bagmat" → bagmatiMatch f = false) ∧
    (∀ (d : Dataset) (fs : List Feature), d.features = some fs →
       (∀ f ∈ fs, bagmatiMatch f = false) → findBagmati d = none) := by
  refine ⟨?_, ?_, ?_, ?_⟩
  · intro d f
    unfold findBagmati
    cases hd : d.features with
    | none => simp
    | some fs => simp [find_first_iff]
  · intro f h
    unfold bagmatiMatch
    rw [h]
    decide
  · intro f h
    unfold bagmatiMatch
    rw [h]
    decide
  · intro d fs hd hall
    unfold findBagmati
    rw [hd]
    simp only [Option.some_bind, List.find?_eq_none]
    intro x hx
    simp [hall x hx]

/-- Witness for C5: the characterisation applied at concrete datasets —
`dBag` yields its Bagmati feature as first match, the upper-cased and
truncated names behave as stated, and `dNoBag` yields `none`. -/
theorem c5_bagmati_extractor_witness :
    findBagmati dBag = some ⟨⟨some "Bagmati Province", none, none, none⟩, none⟩ ∧
    bagmatiMatch ⟨⟨some "BAGMATI PROVINCE", none, none, none⟩, none⟩ = true ∧
    bagmatiMatch ⟨⟨some "Bagmat", none, none, none⟩, none⟩ = false ∧
    findBagmati dNoBag = none := by
  obtain ⟨h1, h2, h3, h4⟩ := c5_bagmati_extractor
  refine ⟨?_, ?_, ?_, ?_⟩
  · exact (h1 dBag _).mpr ⟨_, rfl, 0, rfl, by decide, by intro j hj; omega⟩
  · exact h2 _ (by decide)
  · exact h3 _ (by decide)
  · exact h4 dNoBag _ rfl (by decide)

lemma runPipeline_country (env : Env) (s : SourceId) (d : Dataset)
    (hc : countryPick env = some (s, d)) :
    runPipeline env =
      loadNepalBoundaryData verifyDisputedTerritories env d s (addFetched initialSt (countryTrace env)) := by
  rw [runPipeline_eq, hc]

lemma runPipeline_gov (env : Env) (s : SourceId) (d : Dataset)
    (hc : countryPick env = none) (hg : govPick env = some (s, d)) :
    runPipeline env =
      loadNepalBoundaryData verifyDisputedTerritories env d s
        (addFetched initialSt (countryTrace env ++ govTracePre env)) := by
  rw [runPipeline_eq, hc, hg]

lemma runPipeline_fallbackCase (env : Env)
    (hc : countryPick env = none) (hg : govPick env = none) :
    runPipeline env = loadFallbackBoundaries (addFetched initialSt (countryTrace env ++ govTracePre env)) := by
  rw [runPipeline_eq, hc, hg]

lemma gov_normal (v : Dataset → Bool) (env : Env) (st : St) :
    ∃ st', loadGovernmentVerifiedBoundaries v env st = TryOut.normal st' := by
  unfold loadGovernmentVerifiedBoundaries
  cases h : govVerifiedAttempt v env st with
  | normal s => exact ⟨s, rfl⟩
  | thrown s => exact ⟨loadFallbackBoundaries s, rfl⟩

/-- C4: for every verifier and every combination of per-source
outcomes, the top-level entry point `loadGeographicBoundaries` returns
normally (no exception propagates to its caller), and the pass ends
with the country slot holding either a dataset resolved from a source
or the static fallback outline — in the latter case the province and
municipality slots hold their fallback outlines as well. -/
theorem c4_no_error_propagation (v : Dataset → Bool) (env : Env) :
    (∃ st', loadGeographicBoundaries v env initialSt = TryOut.normal st') ∧
    ((∃ d s, (finalSt (loadGeographicBoundaries v env initialSt)).nepal = some (Geom.dataset d, Provenance.source s)) ∨
     ((finalSt (loadGeographicBoundaries v env initialSt)).nepal = some (Geom.outline nepalOutline, Provenance.fallback) ∧
      (finalSt (loadGeographicBoundaries v env initialSt)).bagmati = some (Geom.outline bagmatiOutline, Provenance.fallback) ∧
      (finalSt (loadGeographicBoundaries v env initialSt)).nagarjun = some (Geom.outline nagarjunOutline, Provenance.fallback))) := by
  constructor
  · unfold loadGeographicBoundaries
    cases h1 : geographicAttempt v env initialSt with
    | normal st1 => exact ⟨st1, rfl⟩
    | thrown st1 => exact gov_normal v env st1
  · rw [run_finalSt]
    cases hc : countryPick env with
    | some p =>
      obtain ⟨s, d⟩ := p
      exact Or.inl ⟨d, s, (nbd_nepal v env d s _).1⟩
    | none =>
      cases hg : govPick env with
      | some p =>
        obtain ⟨s, d⟩ := p
        exact Or.inl ⟨d, s, (nbd_nepal v env d s _).1⟩
      | none =>
        exact Or.inr ⟨(fallback_state _).1, (fallback_state _).2.1, (fallback_state _).2.2.1⟩

/-- C3: if all four country-tier sources fail, the static fallback
provisioner is invoked and assigns the hardcoded outlines to country,
province and municipality together, the municipality geometry being
`nagarjunOutline`; and there is no partial fallback: a pass in which
any slot carries fallback provenance is a pass in which all three
carry exactly the fallback outlines. -/
theorem c3_fallback_provisioner :
    (∀ env : Env,
      isFailure (env .nepal1) = true → isFailure (env .nepal2) = true →
      isFailure (env .oknp) = true → isFailure (env .community) = true →
      runPipeline env = loadFallbackBoundaries (addFetched initialSt (countryTrace env ++ govTracePre env)) ∧
      (runPipeline env).nepal = some (Geom.outline nepalOutline, Provenance.fallback) ∧
      (runPipeline env).bagmati = some (Geom.outline bagmatiOutline, Provenance.fallback) ∧
      (runPipeline env).nagarjun = some (Geom.outline nagarjunOutline, Provenance.fallback)) ∧
    (∀ env : Env,
      ((∃ g, (runPipeline env).nepal = some (g, Provenance.fallback)) ∨
       (∃ g, (runPipeline env).bagmati = some (g, Provenance.fallback)) ∨
       (∃ g, (runPipeline env).nagarjun = some (g, Provenance.fallback))) →
      (runPipeline env).nepal = some (Geom.outline nepalOutline, Provenance.fallback) ∧
      (runPipeline env).bagmati = some (Geom.outline bagmatiOutline, Provenance.fallback) ∧
      (runPipeline env).nagarjun = some (Geom.outline nagarjunOutline, Provenance.fallback)) := by
  constructor
  · intro env h1 h2 h3 h4
    have he := allCountryFail_fallback env h1 h2 h3 h4
    refine ⟨he, ?_, ?_, ?_⟩ <;> rw [he]
    · exact (fallback_state _).1
    · exact (fallback_state _).2.1
    · exact (fallback_state _).2.2.1
  · intro env hsome
    cases hc : countryPick env with
    | some p =>
      obtain ⟨s, d⟩ := p
      have he := runPipeline_country env s d hc
      exfalso
      rcases hsome with ⟨g, hg⟩ | ⟨g, hg⟩ | ⟨g, hg⟩
      · rw [he, (nbd_nepal _ _ _ _ _).1] at hg
        simp at hg
      · rcases nbd_bagmati_shape verifyDisputedTerritories env d s
            (addFetched initialSt (countryTrace env)) with ⟨hb1, _⟩ | ⟨f, _, hb1, _⟩ | ⟨_, f, s', hb1, _⟩ <;>
          rw [he, hb1] at hg <;> simp at hg
      · rcases nbd_nagarjun_shape verifyDisputedTerritories env d s
            (addFetched initialSt (countryTrace env)) with ⟨hb1, _⟩ | ⟨f, s', hb1, _⟩ <;>
          rw [he, hb1] at hg <;> simp at hg
    | none =>
      cases hg2 : govPick env with
      | some p =>
        obtain ⟨s, d⟩ := p
        have he := runPipeline_gov env s d hc hg2
        exfalso
        rcases hsome with ⟨g, hg⟩ | ⟨g, hg⟩ | ⟨g, hg⟩
        · rw [he, (nbd_nepal _ _ _ _ _).1] at hg
          simp at hg
        · rcases nbd_bagmati_shape verifyDisputedTerritories env d s
              (addFetched initialSt (countryTrace env ++ govTracePre env)) with ⟨hb1, _⟩ | ⟨f, _, hb1, _⟩ | ⟨_, f, s', hb1, _⟩ <;>
            rw [he, hb1] at hg <;> simp at hg
        · rcases nbd_nagarjun_shape verifyDisputedTerritories env d s
              (addFetched initialSt (countryTrace env ++ govTracePre env)) with ⟨hb1, _⟩ | ⟨f, s', hb1, _⟩ <;>
            rw [he, hb1] at hg <;> simp at hg
      | none =>
        have he := runPipeline_fallbackCase env hc hg2
        rw [he]
        exact ⟨(fallback_state _).1, (fallback_state _).2.1, (fallback_state _).2.2.1⟩

/-- Witness for C3: in the environment where every source answers
non-success, the pass equals a fallback-provisioner call and all three
slots hold the fallback outlines. -/
theorem c3_fallback_provisioner_witness :
    runPipeline envAllNotOk =
      loadFallbackBoundaries (addFetched initialSt (countryTrace envAllNotOk ++ govTracePre envAllNotOk)) ∧
    (runPipeline envAllNotOk).nepal = some (Geom.outline nepalOutline, Provenance.fallback) ∧
    (runPipeline envAllNotOk).bagmati = some (Geom.outline bagmatiOutline, Provenance.fallback) ∧
    (runPipeline envAllNotOk).nagarjun = some (Geom.outline nagarjunOutline, Provenance.fallback) := by
  obtain ⟨hA, hB⟩ := c3_fallback_provisioner
  obtain ⟨h1, h2, h3, h4⟩ := hA envAllNotOk (by decide) (by decide) (by decide) (by decide)
  have h5 := hB envAllNotOk (Or.inl ⟨_, h2⟩)
  exact ⟨h1, h5⟩

/-- C2 (amended): if every country-tier source fails then country,
province and municipality all resolve to the static fallback geometry
with provenance fallback; but when the country chain succeeds and both
municipality sources fail, the municipality boundary remains unset for
the pass — it does not receive the fallback geometry. -/
theorem c2_amended :
    (∀ env : Env,
      isFailure (env .nepal1) = true → isFailure (env .nepal2) = true →
      isFailure (env .oknp) = true → isFailure (env .community) = true →
      (runPipeline env).nepal = some (Geom.outline nepalOutline, Provenance.fallback) ∧
      (runPipeline env).bagmati = some (Geom.outline bagmatiOutline, Provenance.fallback) ∧
      (runPipeline env).nagarjun = some (Geom.outline nagarjunOutline, Provenance.fallback)) ∧
    (∀ (env : Env) (d : Dataset), env .nepal1 = .success d →
      isFailure (env .muni1) = true → isFailure (env .muni2) = true →
      (runPipeline env).nagarjun = none) := by
  constructor
  · intro env h1 h2 h3 h4
    have he := allCountryFail_fallback env h1 h2 h3 h4
    rw [he]
    exact ⟨(fallback_state _).1, (fallback_state _).2.1, (fallback_state _).2.2.1⟩
  · intro env d h1 hm1 hm2
    have he := runPipeline_country env .nepal1 d (countryPick_success env d h1)
    rw [he, nbd_pushLog_eq, pushLog_nagarjun, muni_bothFail env _ hm1 hm2,
      recordFetch_nagarjun, recordFetch_nagarjun,
      (province_preserved _ _ _ _).2.1, setNepal_nagarjun]
    simp

/-- Witness for C2 (amended): all sources failing yields fallback for
the municipality slot, while a succeeding country chain with failing
municipality sources leaves it unset. -/
theorem c2_amended_witness :
    (runPipeline envAllNet).nagarjun = some (Geom.outline nagarjunOutline, Provenance.fallback) ∧
    (runPipeline envMuniFail).nagarjun = none := by
  obtain ⟨hA, hB⟩ := c2_amended
  exact ⟨(hA envAllNet (by decide) (by decide) (by decide) (by decide)).2.2,
    hB envMuniFail dBag rfl (by decide) (by decide)⟩

lemma runTrace_country (env : Env) (s : SourceId) (d : Dataset)
    (hc : countryPick env = some (s, d)) :
    runTrace env = countryTrace env ++ nbdTrace env d := by
  unfold runTrace
  rw [hc]

lemma runTrace_gov (env : Env) (s : SourceId) (d : Dataset)
    (hc : countryPick env = none) (hg : govPick env = some (s, d)) :
    runTrace env = countryTrace env ++ govTracePre env ++ nbdTrace env d := by
  unfold runTrace
  rw [hc, hg]

lemma runTrace_fallbackCase (env : Env)
    (hc : countryPick env = none) (hg : govPick env = none) :
    runTrace env = countryTrace env ++ govTracePre env := by
  unfold runTrace
  rw [hc, hg]

lemma run_country (v : Dataset → Bool) (env : Env) (s : SourceId) (d : Dataset)
    (hc : countryPick env = some (s, d)) :
    finalSt (loadGeographicBoundaries v env initialSt) =
      loadNepalBoundaryData v env d s (addFetched initialSt (countryTrace env)) := by
  rw [run_finalSt, hc]

lemma run_fallbackCaseV (v : Dataset → Bool) (env : Env)
    (hc : countryPick env = none) (hg : govPick env = none) :
    finalSt (loadGeographicBoundaries v env initialSt) =
      loadFallbackBoundaries (addFetched initialSt (countryTrace env ++ govTracePre env)) := by
  rw [run_finalSt, hc, hg]

lemma run_govV (v : Dataset → Bool) (env : Env) (s : SourceId) (d : Dataset)
    (hc : countryPick env = none) (hg : govPick env = some (s, d)) :
    finalSt (loadGeographicBoundaries v env initialSt) =
      loadNepalBoundaryData v env d s (addFetched initialSt (countryTrace env ++ govTracePre env)) := by
  rw [run_finalSt, hc, hg]

lemma gov_pick_eq (v : Dataset → Bool) (env : Env) (st : St) (s : SourceId) (d : Dataset)
    (hg : govPick env = some (s, d)) :
    finalSt (loadGovernmentVerifiedBoundaries v env st) =
      loadNepalBoundaryData v env d s (addFetched st (govTracePre env)) := by
  rw [gov_finalSt, hg]

lemma gov_pick_noneCase (v : Dataset → Bool) (env : Env) (st : St)
    (hg : govPick env = none) :
    finalSt (loadGovernmentVerifiedBoundaries v env st) =
      loadFallbackBoundaries (addFetched st (govTracePre env)) := by
  rw [gov_finalSt, hg]

lemma countryPick_thrown (env : Env)
    (h : env .nepal1 = .netError ∨ env .nepal1 = .parseError) :
    countryPick env = none := by
  unfold countryPick
  rcases h with h | h <;> simp [h]

/-- C6: when the country dataset parses but contains no Bagmati match,
the resolver treats this as data absence — it fetches each source at
most once, attempts the district chain, and installs the first
Kathmandu district feature of the first district source as the
province boundary with district-proxy provenance, never touching the
second district source. -/
theorem c6_district_proxy (env : Env) (d dd : Dataset) (f : Feature)
    (h1 : env .nepal1 = .success d) (h2 : findBagmati d = none)
    (h3 : env .dist1 = .success dd) (h4 : findKathmandu dd = some f) :
    (runPipeline env).bagmati = some (Geom.feature f, Provenance.districtProxy .dist1) ∧
    SourceId.dist1 ∈ (runPipeline env).fetched ∧
    SourceId.dist2 ∉ (runPipeline env).fetched ∧
    (runPipeline env).fetched.Nodup := by
  have he := runPipeline_country env .nepal1 d (countryPick_success env d h1)
  have hnb : nbdTrace env d = [SourceId.dist1] ++ muniTrace env := by
    unfold nbdTrace provinceTrace
    rw [h2, districtTrace_success env dd h3]
  have hrt : runTrace env = countryTrace env ++ ([SourceId.dist1] ++ muniTrace env) := by
    rw [runTrace_country env _ d (countryPick_success env d h1), hnb]
  refine ⟨?_, ?_, ?_, runPipeline_nodup env⟩
  · rw [he, nbd_pushLog_eq, pushLog_bagmati, (muni_preserved _ _).2.1,
      province_notFound _ _ _ _ h2,
      district_first_found env _ dd f h3 h4 (by simp)]
    simp
  · rw [runPipeline_fetched, hrt]
    simp
  · intro hmem
    rw [runPipeline_fetched, hrt] at hmem
    simp [List.mem_append] at hmem
    rcases hmem with h | h
    · exact absurd ((countryTrace_sub env).subset h) (by decide)
    · exact absurd ((muniTrace_sub env).subset h) (by decide)

/-- Witness for C6: the district-as-proxy scenario on concrete data —
country data naming only Gandaki, first district source naming
Kathmandu. -/
theorem c6_district_proxy_witness :
    (runPipeline envDistrictProxy).bagmati =
      some (Geom.feature ⟨⟨none, none, some "Kathmandu", none⟩, none⟩, Provenance.districtProxy .dist1) ∧
    SourceId.dist1 ∈ (runPipeline envDistrictProxy).fetched ∧
    SourceId.dist2 ∉ (runPipeline envDistrictProxy).fetched ∧
    (runPipeline envDistrictProxy).fetched.Nodup :=
  c6_district_proxy envDistrictProxy dNoBag dKat _ rfl (by decide) rfl (by decide)

/-- C9: when the first municipality source delivers a parseable dataset
containing no feature whose NAME contains "nagarjun", the resolver
never fetches the second municipality source and the municipality slot
stays unset for the rest of the pass. -/
theorem c9_muni_first_source (env : Env) (d : Dataset)
    (h1 : env .muni1 = .success d) (h2 : findNagarjun d = none)
    (h3 : SourceId.muni1 ∈ (runPipeline env).fetched) :
    SourceId.muni2 ∉ (runPipeline env).fetched ∧ (runPipeline env).nagarjun = none := by
  cases hc : countryPick env with
  | some p =>
    obtain ⟨s, d0⟩ := p
    have he := runPipeline_country env s d0 hc
    have hnb : nbdTrace env d0 = provinceTrace env d0 ++ [SourceId.muni1] := by
      unfold nbdTrace
      rw [muniTrace_success env d h1]
    constructor
    · intro hmem
      rw [runPipeline_fetched, runTrace_country env s d0 hc, hnb] at hmem
      simp [List.mem_append] at hmem
      rcases hmem with h | h
      · exact absurd ((countryTrace_sub env).subset h) (by decide)
      · exact absurd ((provinceTrace_sub env d0).subset h) (by decide)
    · rw [he, nbd_pushLog_eq, pushLog_nagarjun, muni_first_noMatch env _ d h1 h2,
        recordFetch_nagarjun, (province_preserved _ _ _ _).2.1, setNepal_nagarjun]
      simp
  | none =>
    cases hg : govPick env with
    | some p =>
      obtain ⟨s, d0⟩ := p
      have he := runPipeline_gov env s d0 hc hg
      have hnb : nbdTrace env d0 = provinceTrace env d0 ++ [SourceId.muni1] := by
        unfold nbdTrace
        rw [muniTrace_success env d h1]
      constructor
      · intro hmem
        rw [runPipeline_fetched, runTrace_gov env s d0 hc hg, hnb] at hmem
        simp [List.mem_append] at hmem
        rcases hmem with h | h | h
        · exact absurd ((countryTrace_sub env).subset h) (by decide)
        · exact absurd ((govTracePre_sub env).subset h) (by decide)
        · exact absurd ((provinceTrace_sub env d0).subset h) (by decide)
      · rw [he, nbd_pushLog_eq, pushLog_nagarjun, muni_first_noMatch env _ d h1 h2,
          recordFetch_nagarjun, (province_preserved _ _ _ _).2.1, setNepal_nagarjun]
        simp
    | none =>
      exfalso
      rw [runPipeline_fetched, runTrace_fallbackCase env hc hg] at h3
      rcases List.mem_append.mp h3 with h | h
      · exact absurd ((countryTrace_sub env).subset h) (by decide)
      · exact absurd ((govTracePre_sub env).subset h) (by decide)

/-- Witness for C9: the country chain succeeds, the first municipality
source parses with no Nagarjun feature; the second source is never
fetched and the municipality slot ends the pass unset. -/
theorem c9_muni_first_source_witness :
    SourceId.muni2 ∉ (runPipeline envMuniNoNag).fetched ∧
    (runPipeline envMuniNoNag).nagarjun = none :=
  c9_muni_first_source envMuniNoNag dNoNag rfl (by decide) (by decide)

/-- C7: in every pass each of the three output slots is written at most
once — the write counters never exceed one — and a slot holds a
boundary exactly when it was written exactly once, so no slot is ever
overwritten and every held boundary was installed whole by a single
assignment (one source's geometry or the fallback outline with its one
provenance tag). -/
theorem c7_single_write (env : Env) :
    (runPipeline env).nepalWrites ≤ 1 ∧
    (runPipeline env).bagmatiWrites ≤ 1 ∧
    (runPipeline env).nagarjunWrites ≤ 1 ∧
    ((runPipeline env).nepal.isSome ↔ (runPipeline env).nepalWrites = 1) ∧
    ((runPipeline env).bagmati.isSome ↔ (runPipeline env).bagmatiWrites = 1) ∧
    ((runPipeline env).nagarjun.isSome ↔ (runPipeline env).nagarjunWrites = 1) := by
  cases hc : countryPick env with
  | some p =>
    obtain ⟨s, d⟩ := p
    have he := runPipeline_country env s d hc
    have hn := nbd_nepal verifyDisputedTerritories env d s (addFetched initialSt (countryTrace env))
    have hb := nbd_bagmati_shape verifyDisputedTerritories env d s (addFetched initialSt (countryTrace env))
    have hg := nbd_nagarjun_shape verifyDisputedTerritories env d s (addFetched initialSt (countryTrace env))
    rw [he]
    refine ⟨?_, ?_, ?_, ?_, ?_, ?_⟩
    · rw [hn.2]; simp
    · rcases hb with ⟨_, h'⟩ | ⟨f, _, _, h'⟩ | ⟨_, f, s', _, h'⟩ <;> rw [h'] <;> simp
    · rcases hg with ⟨_, h'⟩ | ⟨f, s', _, h'⟩ <;> rw [h'] <;> simp
    · rw [hn.1, hn.2]; simp
    · rcases hb with ⟨h, h'⟩ | ⟨f, _, h, h'⟩ | ⟨_, f, s', h, h'⟩ <;> rw [h, h'] <;> simp
    · rcases hg with ⟨h, h'⟩ | ⟨f, s', h, h'⟩ <;> rw [h, h'] <;> simp
  | none =>
    cases hg2 : govPick env with
    | some p =>
      obtain ⟨s, d⟩ := p
      have he := runPipeline_gov env s d hc hg2
      have hn := nbd_nepal verifyDisputedTerritories env d s
        (addFetched initialSt (countryTrace env ++ govTracePre env))
      have hb := nbd_bagmati_shape verifyDisputedTerritories env d s
        (addFetched initialSt (countryTrace env ++ govTracePre env))
      have hg := nbd_nagarjun_shape verifyDisputedTerritories env d s
        (addFetched initialSt (countryTrace env ++ govTracePre env))
      rw [he]
      refine ⟨?_, ?_, ?_, ?_, ?_, ?_⟩
      · rw [hn.2]; simp
      · rcases hb with ⟨_, h'⟩ | ⟨f, _, _, h'⟩ | ⟨_, f, s', _, h'⟩ <;> rw [h'] <;> simp
      · rcases hg with ⟨_, h'⟩ | ⟨f, s', _, h'⟩ <;> rw [h'] <;> simp
      · rw [hn.1, hn.2]; simp
      · rcases hb with ⟨h, h'⟩ | ⟨f, _, h, h'⟩ | ⟨_, f, s', h, h'⟩ <;> rw [h, h'] <;> simp
      · rcases hg with ⟨h, h'⟩ | ⟨f, s', h, h'⟩ <;> rw [h, h'] <;> simp
    | none =>
      have he := runPipeline_fallbackCase env hc hg2
      have hf := fallback_state (addFetched initialSt (countryTrace env ++ govTracePre env))
      rw [he]
      refine ⟨?_, ?_, ?_, ?_, ?_, ?_⟩ <;>
        simp [hf.1, hf.2.1, hf.2.2.1, hf.2.2.2.1, hf.2.2.2.2.1, hf.2.2.2.2.2.1]

/-- C8: the disputed-territory verifier's boolean result has no
influence on the resolved outputs — two passes over the same
environment with arbitrary verifiers agree on all three slots and on
the fetch log — and a country dataset for which
`verifyDisputedTerritories` reports false is still accepted and
installed as the country boundary. -/
theorem c8_verifier_noninterference :
    (∀ (v1 v2 : Dataset → Bool) (env : Env),
      (finalSt (loadGeographicBoundaries v1 env initialSt)).nepal =
        (finalSt (loadGeographicBoundaries v2 env initialSt)).nepal ∧
      (finalSt (loadGeographicBoundaries v1 env initialSt)).bagmati =
        (finalSt (loadGeographicBoundaries v2 env initialSt)).bagmati ∧
      (finalSt (loadGeographicBoundaries v1 env initialSt)).nagarjun =
        (finalSt (loadGeographicBoundaries v2 env initialSt)).nagarjun ∧
      (finalSt (loadGeographicBoundaries v1 env initialSt)).fetched =
        (finalSt (loadGeographicBoundaries v2 env initialSt)).fetched) ∧
    (∀ (env : Env) (d : Dataset), env .nepal1 = .success d →
      verifyDisputedTerritories d = false →
      (runPipeline env).nepal = some (Geom.dataset d, Provenance.source .nepal1)) := by
  constructor
  · intro v1 v2 env
    cases hc : countryPick env with
    | some p =>
      obtain ⟨s, d⟩ := p
      rw [run_country v1 env s d hc, run_country v2 env s d hc, nbd_pushLog_eq, nbd_pushLog_eq]
      exact ⟨by simp, by simp, by simp, by simp⟩
    | none =>
      cases hg : govPick env with
      | some p =>
        obtain ⟨s, d⟩ := p
        rw [run_govV v1 env s d hc hg, run_govV v2 env s d hc hg, nbd_pushLog_eq, nbd_pushLog_eq]
        exact ⟨by simp, by simp, by simp, by simp⟩
      | none =>
        rw [run_fallbackCaseV v1 env hc hg, run_fallbackCaseV v2 env hc hg]
        exact ⟨rfl, rfl, rfl, rfl⟩
  · intro env d h1 h2
    have he := runPipeline_country env .nepal1 d (countryPick_success env d h1)
    rw [he]
    exact (nbd_nepal _ _ _ _ _).1

/-- Witness for C8: two passes with constant-true and constant-false
verifiers agree on the country slot, and the concrete dataset `dNo80`
(for which the verifier reports false) is still installed as the
country boundary. -/
theorem c8_verifier_noninterference_witness :
    (finalSt (loadGeographicBoundaries (fun _ => true) envAllNotOk initialSt)).nepal =
      (finalSt (loadGeographicBoundaries (fun _ => false) envAllNotOk initialSt)).nepal ∧
    verifyDisputedTerritories dNo80 = false ∧
    (runPipeline envVerifyFalse).nepal = some (Geom.dataset dNo80, Provenance.source .nepal1) := by
  obtain ⟨hA, hB⟩ := c8_verifier_noninterference
  exact ⟨(hA (fun _ => true) (fun _ => false) envAllNotOk).1, by decide,
    hB envVerifyFalse dNo80 rfl (by decide)⟩

/-- C1 (amended): in the municipality and district chains every kind of
failure of the first source (network error, non-success response, or
parse failure) leads to the second source being attempted; in the
country tier the alternative source is attempted when the primary
returns a non-success response, while a network or parse failure of
the primary skips the alternative entirely and escalates to the
government-verified tier, and symmetrically a network or parse failure
of the first government-verified source skips the second; and no
source is fetched more than once per resolution pass. -/
theorem c1_amended :
    (∀ (env : Env) (st : St), isFailure (env .muni1) = true →
      (loadOfficialMunicipalityBoundaries env st).fetched = st.fetched ++ [.muni1, .muni2]) ∧
    (∀ (env : Env) (st : St), isFailure (env .dist1) = true →
      (loadDistrictBoundaries env st).fetched = st.fetched ++ [.dist1, .dist2]) ∧
    (∀ env : Env, env .nepal1 = .notOk → SourceId.nepal2 ∈ (runPipeline env).fetched) ∧
    (∀ env : Env, env .nepal1 = .netError ∨ env .nepal1 = .parseError →
      SourceId.nepal2 ∉ (runPipeline env).fetched ∧ SourceId.oknp ∈ (runPipeline env).fetched) ∧
    (∀ (v : Dataset → Bool) (env : Env) (st : St), env .oknp = .notOk →
      ∃ l, (finalSt (loadGovernmentVerifiedBoundaries v env st)).fetched =
        st.fetched ++ [.oknp, .community] ++ l) ∧
    (∀ (v : Dataset → Bool) (env : Env) (st : St),
      env .oknp = .netError ∨ env .oknp = .parseError →
      (finalSt (loadGovernmentVerifiedBoundaries v env st)).fetched = st.fetched ++ [.oknp]) ∧
    (∀ env : Env, (runPipeline env).fetched.Nodup) := by
  refine ⟨?_, ?_, ?_, ?_, ?_, ?_, fun env => runPipeline_nodup env⟩
  · intro env st h
    rw [muni_fetched, muniTrace_fail env h]
  · intro env st h
    rw [district_fetched, districtTrace_fail env h]
  · intro env h
    rw [runPipeline_fetched]
    cases hc : countryPick env with
    | some p =>
      obtain ⟨s, d⟩ := p
      rw [runTrace_country env s d hc, countryTrace_notOk env h]
      simp
    | none =>
      cases hg : govPick env with
      | some p =>
        obtain ⟨s, d⟩ := p
        rw [runTrace_gov env s d hc hg, countryTrace_notOk env h]
        simp
      | none =>
        rw [runTrace_fallbackCase env hc hg, countryTrace_notOk env h]
        simp
  · intro env h
    have hc := countryPick_thrown env h
    have hct := countryTrace_thrown env h
    cases hg : govPick env with
    | some p =>
      obtain ⟨s, d⟩ := p
      rw [runPipeline_fetched, runTrace_gov env s d hc hg, hct]
      constructor
      · intro hmem
        simp [List.mem_append] at hmem
        rcases hmem with h' | h'
        · exact absurd ((govTracePre_sub env).subset h') (by decide)
        · rcases List.mem_append.mp ((by simpa [nbdTrace] using h') :
            SourceId.nepal2 ∈ provinceTrace env d ++ muniTrace env) with h'' | h''
          · exact absurd ((provinceTrace_sub env d).subset h'') (by decide)
          · exact absurd ((muniTrace_sub env).subset h'') (by decide)
      · simp [List.mem_append, oknp_mem_govTracePre env]
    | none =>
      rw [runPipeline_fetched, runTrace_fallbackCase env hc hg, hct]
      constructor
      · intro hmem
        simp [List.mem_append] at hmem
        exact absurd ((govTracePre_sub env).subset hmem) (by decide)
      · simp [List.mem_append, oknp_mem_govTracePre env]
  · intro v env st h
    cases hg : govPick env with
    | some p =>
      obtain ⟨s, d⟩ := p
      refine ⟨nbdTrace env d, ?_⟩
      rw [gov_pick_eq v env st s d hg, nbd_fetched, addFetched_fetched,
        govTracePre_notOk env h, List.append_assoc]
    | none =>
      refine ⟨[], ?_⟩
      rw [gov_pick_noneCase v env st hg, (fallback_state _).2.2.2.2.2.2.1,
        addFetched_fetched, govTracePre_notOk env h]
      simp
  · intro v env st h
    rw [gov_pick_noneCase v env st (govPick_thrown env h), (fallback_state _).2.2.2.2.2.2.1,
      addFetched_fetched, govTracePre_thrown env h]

/-- Witness for C1 (amended): each clause instantiated at a concrete
environment — all-non-success for the chain-advance clauses and
all-network-error for the skip clauses. -/
theorem c1_amended_witness :
    (loadOfficialMunicipalityBoundaries envAllNotOk initialSt).fetched =
      initialSt.fetched ++ [SourceId.muni1, SourceId.muni2] ∧
    (loadDistrictBoundaries envAllNotOk initialSt).fetched =
      initialSt.fetched ++ [SourceId.dist1, SourceId.dist2] ∧
    SourceId.nepal2 ∈ (runPipeline envAllNotOk).fetched ∧
    (SourceId.nepal2 ∉ (runPipeline envAllNet).fetched ∧
      SourceId.oknp ∈ (runPipeline envAllNet).fetched) ∧
    (∃ l, (finalSt (loadGovernmentVerifiedBoundaries verifyDisputedTerritories envAllNotOk initialSt)).fetched =
      initialSt.fetched ++ [SourceId.oknp, SourceId.community] ++ l) ∧
    (finalSt (loadGovernmentVerifiedBoundaries verifyDisputedTerritories envAllNet initialSt)).fetched =
      initialSt.fetched ++ [SourceId.oknp] ∧
    (runPipeline envAllNotOk).fetched.Nodup := by
  obtain ⟨hA, hB, hC, hD, hE, hF, hG⟩ := c1_amended
  exact ⟨hA envAllNotOk initialSt (by decide), hB envAllNotOk initialSt (by decide),
    hC envAllNotOk rfl, hD envAllNet (Or.inl rfl),
    hE verifyDisputedTerritories envAllNotOk initialSt rfl,
    hF verifyDisputedTerritories envAllNet initialSt (Or.inl rfl),
    hG envAllNotOk⟩
